import Mathlib

/-!
Verification of the OAuth credential lifecycle manager implemented by the
QwenCode and GeminiCli providers
(`app/lib/modules/llm/providers/qwen-code.ts` and
`app/lib/modules/llm/providers/gemini-cli.ts`).

The TypeScript code is embedded shallowly:

* JavaScript string/number truthiness (`x || y`, `if (!x)`) is modelled by
  the `jsTruthy` / `jsOr` / `jsOrStr` / `jsOrInt` helpers: an absent field
  (`none`) and an empty string (`some ""`) are both falsy, and the number `0`
  is falsy, exactly as in the source.
* Fallible operations (file reads, `fetch`, `JSON.parse`) are modelled by
  explicit input values describing their outcome, and functions that can
  throw return `Except`.
* Mutable instance fields (`_credentials`, `_oauthPath`, `_initialized`,
  `_client`, `_oauthConfig`) become explicit state records threaded through
  the functions.
* `Date.now()` is passed as an explicit `now : Int` argument (milliseconds
  since the epoch).
* The concurrent behaviour of `refreshAccessToken` (the `_refreshPromise`
  single-flight slot) is modelled by a small-step transition system in the
  `SingleFlight` namespace; the sequential embeddings use
  `performTokenRefresh` directly, which is what a lone caller of
  `refreshAccessToken` executes (the slot is set and cleared within that
  single logical call).
-/

/-- JavaScript truthiness of an optional string field: `undefined`/absent and
the empty string are falsy. -/
def jsTruthy : Option String → Bool
  | none => false
  | some s => !(s == "")

/-- JavaScript `a || b` on optional string values. -/
def jsOr (a b : Option String) : Option String :=
  if jsTruthy a then a else b

/-- JavaScript `a || b` where `b` is a string constant/fallback. -/
def jsOrStr (a : Option String) (b : String) : String :=
  match a with
  | none => b
  | some s => if s == "" then b else s

/-- JavaScript `a || b` on optional numbers (`0` is falsy). -/
def jsOrInt (a : Option Int) (b : Int) : Int :=
  match a with
  | none => b
  | some x => if x == 0 then b else x

/-- Helper for `strIncludes`: does `pat` occur as a prefix of some suffix? -/
def containsSeg (pat : List Char) : List Char → Bool
  | [] => pat.isEmpty
  | c :: rest => pat.isPrefixOf (c :: rest) || containsSeg pat rest

/-- JavaScript `s.includes(pat)`: substring test. -/
def strIncludes (s pat : String) : Bool :=
  containsSeg pat.toList s.toList

deriving instance DecidableEq for Except

/-- Outcome of the i-th piece of the token-endpoint interaction: the parsed
JSON body of a `fetch` response from the OAuth token endpoint, together with
the HTTP status information the code inspects.  Shared by both providers. -/
structure TokenResponse where
  ok : Bool
  status : Nat
  statusText : String
  bodyText : String
  error : Option String
  error_description : Option String
  access_token : String
  token_type : Option String
  refresh_token : Option String
  expires_in : Int
deriving DecidableEq

/-- The raw JSON object parsed from a credential file.  Every field may be
absent at runtime (the TypeScript cast does not validate). -/
structure RawCredentials where
  access_token : Option String
  refresh_token : Option String
  token_type : Option String
  expiry_date : Option Int
  resource_url : Option String
deriving DecidableEq

/-- What `loadCredentials` finds at the credential path: the read failed
(file missing or unreadable), `JSON.parse` failed (malformed JSON), or a
parsed JSON object. -/
inductive FileContent where
  | readFail (msg : String)
  | parseFail (msg : String)
  | parsed (raw : RawCredentials)
deriving DecidableEq

/-- Cause recorded inside a `CredentialLoadError`. -/
inductive LoadCause where
  | fileRead (msg : String)
  | parse (msg : String)
  | missingTokenFields
deriving DecidableEq

/-- The error thrown by `loadCredentials` (`Failed to load ... OAuth
credentials: <cause>`): it wraps the underlying cause. -/
structure CredentialLoadError where
  cause : LoadCause
deriving DecidableEq

/-- Bookkeeping for the ensure-ready path: how many times the credential
file was loaded and how many times `performTokenRefresh` was entered. -/
structure EnsureTrace where
  loads : Nat
  refreshCalls : Nat
deriving DecidableEq

namespace QwenCode

/-- `QwenOAuthCredentials`: the in-memory credential record. -/
structure Credentials where
  access_token : String
  refresh_token : String
  token_type : String
  expiry_date : Int
  resource_url : Option String
deriving DecidableEq

/-- Conversion of a raw parsed JSON object into the record the provider
works with afterwards.  Absent string fields behave exactly like `""` and an
absent `expiry_date` exactly like `0` under the truthiness checks the code
performs, so the defaults preserve behaviour. -/
def toCredentials (raw : RawCredentials) : Credentials :=
  { access_token := raw.access_token.getD ""
    refresh_token := raw.refresh_token.getD ""
    token_type := raw.token_type.getD ""
    expiry_date := raw.expiry_date.getD 0
    resource_url := raw.resource_url }

/-- `loadCredentials`: read the file, parse it, reject records whose
`access_token` or `refresh_token` is missing (falsy). -/
def loadCredentials (file : FileContent) : Except CredentialLoadError Credentials :=
  match file with
  | .readFail msg => .error ⟨.fileRead msg⟩
  | .parseFail msg => .error ⟨.parse msg⟩
  | .parsed raw =>
      if jsTruthy raw.access_token && jsTruthy raw.refresh_token then
        .ok (toCredentials raw)
      else
        .error ⟨.missingTokenFields⟩

/-- The body of `saveCredentials` before its `catch`: `fs.mkdir` followed by
`fs.writeFile`, either of which may fail. -/
def attemptSave (mkdirOk writeOk : Bool) : Except String Unit :=
  if mkdirOk = false then .error "mkdir failed"
  else if writeOk = false then .error "write failed"
  else .ok ()

/-- `saveCredentials`: any failure of the underlying write is caught and
only logged; the function never throws. -/
def saveCredentials (_credentials : Credentials) (mkdirOk writeOk : Bool) :
    Except String Unit :=
  match attemptSave mkdirOk writeOk with
  | .ok _ => .ok ()
  | .error _ => .ok ()

/-- `TOKEN_REFRESH_BUFFER = 30 * 1000` milliseconds. -/
def TOKEN_REFRESH_BUFFER : Int := 30 * 1000

/-- `isTokenValid`: `false` if `expiry_date` is falsy (absent or `0`),
otherwise `Date.now() < expiry_date - TOKEN_REFRESH_BUFFER`. -/
def isTokenValid (credentials : Credentials) (now : Int) : Bool :=
  if credentials.expiry_date == 0 then false
  else decide (now < credentials.expiry_date - TOKEN_REFRESH_BUFFER)

/-- Errors thrown by `performTokenRefresh` (all re-wrapped by its outer
`catch` as `Failed to refresh access token: ...`). -/
inductive RefreshError where
  | noRefreshToken
  | network (msg : String)
  | httpStatus (status : Nat) (statusText : String) (body : String)
  | oauthError (err : String) (description : Option String)
  | persistence (msg : String)
deriving DecidableEq

/-- `performTokenRefresh`: POST to the token endpoint and build the new
record.  `fetchResult` is the outcome of the `fetch` (`.error` = network
failure).  The `persistence` branch mirrors the fact that a throwing
`saveCredentials` would propagate; `saveCredentials` never throws, so that
branch is unreachable. -/
def performTokenRefresh (credentials : Credentials)
    (fetchResult : Except String TokenResponse)
    (now : Int) (mkdirOk writeOk : Bool) : Except RefreshError Credentials :=
  if credentials.refresh_token == "" then .error .noRefreshToken
  else
    match fetchResult with
    | .error msg => .error (.network msg)
    | .ok response =>
      if response.ok = false then
        .error (.httpStatus response.status response.statusText response.bodyText)
      else if jsTruthy response.error then
        .error (.oauthError (response.error.getD "") response.error_description)
      else
        let newCredentials : Credentials :=
          { credentials with
            access_token := response.access_token
            token_type := jsOrStr response.token_type "Bearer"
            refresh_token := jsOrStr response.refresh_token credentials.refresh_token
            expiry_date := now + response.expires_in * 1000 }
        match saveCredentials newCredentials mkdirOk writeOk with
        | .error msg => .error (.persistence msg)
        | .ok _ => .ok newCredentials

/-- The downstream OpenAI-compatible client (`createOpenAI` argument). -/
structure Client where
  baseURL : String
  apiKey : String
deriving DecidableEq

/-- Process-local provider session state: `_credentials`, `_oauthPath`,
`_initialized` and `_client`. -/
structure ProviderState where
  credentials : Option Credentials
  oauthPath : Option String
  pathResolved : Bool
  client : Option Client
deriving DecidableEq

/-- `initializeOAuthPath` (the name is shortened here): resolve the
credential path once, from `settings?.baseUrl`, then
`serverEnv[QWEN_OAUTH_PATH]`, then `process.env[QWEN_OAUTH_PATH]`; later
calls return immediately. -/
def initOAuthPath (st : ProviderState)
    (settingsBaseUrl serverEnvPath procEnvPath : Option String) : ProviderState :=
  if st.pathResolved then st
  else
    { st with
      oauthPath := jsOr settingsBaseUrl (jsOr serverEnvPath procEnvPath)
      pathResolved := true }

/-- `getBaseUrl`: `resource_url` or the DashScope default, normalised to an
`https://` scheme and a `/v1` suffix. -/
def getBaseUrl (creds : Credentials) : String :=
  let b0 := jsOrStr creds.resource_url "https://dashscope.aliyuncs.com/compatible-mode/v1"
  let b1 := if b0.startsWith "http://" || b0.startsWith "https://" then b0 else "https://" ++ b0
  if b1.endsWith "/v1" then b1 else b1 ++ "/v1"

/-- Every external outcome the ensure-ready path can observe. -/
structure EnsureWorld where
  file : FileContent
  now : Int
  fetchResult : Except String TokenResponse
  mkdirOk : Bool
  writeOk : Bool
deriving DecidableEq

/-- Errors surfaced by `ensureClient`. -/
inductive AuthError where
  | load (e : CredentialLoadError)
  | refresh (e : RefreshError)
deriving DecidableEq

/-- Result of one `ensureClient` run: the new session state, the returned
client (or the propagated error), and the effect trace. -/
structure EnsureResult where
  state : ProviderState
  result : Except AuthError Client
  trace : EnsureTrace
deriving DecidableEq

/-- Final part of `ensureClient`: store the (valid) record and create or
update the downstream client bound to it. -/
def finishClient (st : ProviderState) (c : Credentials) (tr : EnsureTrace) :
    EnsureResult :=
  let cl : Client := ⟨getBaseUrl c, c.access_token⟩
  ⟨{ st with credentials := some c, client := some cl }, .ok cl, tr⟩

/-- `ensureClient` after a record `c` is cached: validity check, refresh on
expiry.  A failed refresh leaves `_credentials` untouched (`st` already
holds `some c`). -/
def ensureWith (st : ProviderState) (c : Credentials) (w : EnsureWorld)
    (loads : Nat) : EnsureResult :=
  if isTokenValid c w.now then finishClient st c ⟨loads, 0⟩
  else
    match performTokenRefresh c w.fetchResult w.now w.mkdirOk w.writeOk with
    | .error e => ⟨st, .error (.refresh e), ⟨loads, 1⟩⟩
    | .ok c' => finishClient st c' ⟨loads, 1⟩

/-- `ensureClient`: resolve the path, load the record if absent, refresh if
expired, and build/update the client. -/
def ensureClient (st : ProviderState)
    (settingsBaseUrl serverEnvPath procEnvPath : Option String)
    (w : EnsureWorld) : EnsureResult :=
  let st1 := initOAuthPath st settingsBaseUrl serverEnvPath procEnvPath
  match st1.credentials with
  | some c => ensureWith st1 c w 0
  | none =>
    match loadCredentials w.file with
    | .error e => ⟨st1, .error (.load e), ⟨1, 0⟩⟩
    | .ok c => ensureWith { st1 with credentials := some c } c w 1

/-- The error object thrown by a failed `apiCall` (`error.status` drives the
retry decision). -/
structure ApiError where
  status : Option Nat
  message : String
deriving DecidableEq

/-- What `callApiWithRetry` produces: the api result, the propagated api
error, or a propagated refresh failure. -/
inductive RetryOutcome (A : Type) where
  | success (a : A)
  | apiFailure (e : ApiError)
  | refreshFailure (e : RefreshError)
deriving DecidableEq

/-- Result of `callApiWithRetry` with invocation counts. -/
structure RetryResult (A : Type) where
  state : ProviderState
  outcome : RetryOutcome A
  apiInvocations : Nat
  refreshCalls : Nat
deriving DecidableEq

/-- `callApiWithRetry`: run `apiCall`; on a 401 failure with a cached record
refresh once and retry once; other failures propagate immediately.
`firstCall`/`retryCall` are the outcomes the two possible invocations of
`apiCall` would produce. -/
def callApiWithRetry {A : Type} (st : ProviderState)
    (firstCall retryCall : Except ApiError A) (w : EnsureWorld) : RetryResult A :=
  match firstCall with
  | .ok a => ⟨st, .success a, 1, 0⟩
  | .error e =>
    match st.credentials with
    | some c =>
      if e.status == some 401 then
        match performTokenRefresh c w.fetchResult w.now w.mkdirOk w.writeOk with
        | .error re => ⟨st, .refreshFailure re, 1, 1⟩
        | .ok c' =>
          let st' := { st with credentials := some c' }
          match retryCall with
          | .ok a => ⟨st', .success a, 2, 1⟩
          | .error e2 => ⟨st', .apiFailure e2, 2, 1⟩
      else ⟨st, .apiFailure e, 1, 0⟩
    | none => ⟨st, .apiFailure e, 1, 0⟩

/-- One entry of the `data` array of the `GET /models` response. -/
structure ModelEntry where
  id : Option String
  owned_by : Option String
  context_length : Option Int
  max_completion_tokens : Option Int
deriving DecidableEq

/-- The `GET /models` response: HTTP status plus the `data` field (`some`
only when present and an array). -/
structure ModelsResponse where
  ok : Bool
  status : Nat
  dataField : Option (List ModelEntry)
deriving DecidableEq

/-- A model descriptor as produced for the UI. -/
structure ModelInfo where
  name : String
  label : String
  provider : String
  maxTokenAllowed : Int
  maxCompletionTokens : Int
deriving DecidableEq

/-- The filter in `getDynamicModels`: keep entries whose id mentions a known
model-family keyword. -/
def keepModel (m : ModelEntry) : Bool :=
  jsTruthy m.id &&
    (strIncludes (m.id.getD "") "coder" || strIncludes (m.id.getD "") "qwen" ||
      strIncludes (m.id.getD "") "qwq")

/-- The map in `getDynamicModels`: build a `ModelInfo` from a kept entry. -/
def toModelInfo (m : ModelEntry) : ModelInfo :=
  { name := m.id.getD ""
    label := m.id.getD "" ++ " - " ++ jsOrStr m.owned_by "Qwen" ++ " (Dynamic)"
    provider := "QwenCode"
    maxTokenAllowed := jsOrInt m.context_length 128000
    maxCompletionTokens := min (jsOrInt m.max_completion_tokens 8192) 32000 }

/-- `getDynamicModels`: in the browser return `[]`; otherwise authenticate
and fetch `/models`, mapping every authentication or network failure to `[]`
(static fallback).  `modelsFetch` is the outcome of the `/models` `fetch`. -/
def getDynamicModels (inBrowser : Bool) (st : ProviderState)
    (settingsBaseUrl serverEnvPath procEnvPath : Option String)
    (w : EnsureWorld) (modelsFetch : Except String ModelsResponse) :
    ProviderState × List ModelInfo :=
  if inBrowser then (st, [])
  else
    let st1 := initOAuthPath st settingsBaseUrl serverEnvPath procEnvPath
    let er := ensureClient st1 settingsBaseUrl serverEnvPath procEnvPath w
    match er.result with
    | .error _ => (er.state, [])
    | .ok _ =>
      match modelsFetch with
      | .error _ => (er.state, [])
      | .ok resp =>
        if resp.ok then
          match resp.dataField with
          | some entries => (er.state, (entries.filter keepModel).map toModelInfo)
          | none => (er.state, [])
        else (er.state, [])

/-- The closure state captured by the model handle returned from
`getModelInstance`: `clientPromise` (storing the settled outcome of the one
`ensureClient` promise, even a rejected one) and `isInitializing`. -/
structure HandleState where
  clientPromise : Option (Except AuthError Client)
  initInProgress : Bool
deriving DecidableEq

/-- How a generate/stream invocation can fail before reaching the API call. -/
inductive ClientFetchError where
  | wrappedAuth (e : AuthError)
  | rawAuth (e : AuthError)
  | inProgress
deriving DecidableEq

/-- Result of one `getAuthenticatedClient` call, with the number of
`ensureClient` (orchestrator) runs it performed. -/
structure GetClientResult where
  handle : HandleState
  state : ProviderState
  client : Except ClientFetchError Client
  ensureRuns : Nat
deriving DecidableEq

/-- `getAuthenticatedClient`: run `ensureClient` only when no client promise
is cached; afterwards the cached promise (even a rejected one) is returned
without re-running the orchestrator. -/
def getAuthenticatedClient (h : HandleState) (st : ProviderState)
    (settingsBaseUrl serverEnvPath procEnvPath : Option String)
    (w : EnsureWorld) : GetClientResult :=
  match h.clientPromise with
  | some cached =>
      { handle := h, state := st
        client := match cached with
          | .ok cl => .ok cl
          | .error e => .error (.rawAuth e)
        ensureRuns := 0 }
  | none =>
      if h.initInProgress then
        { handle := h, state := st, client := .error .inProgress, ensureRuns := 0 }
      else
        let er := ensureClient st settingsBaseUrl serverEnvPath procEnvPath w
        { handle := { clientPromise := some er.result, initInProgress := false }
          state := er.state
          client := match er.result with
            | .ok cl => .ok cl
            | .error e => .error (.wrappedAuth e)
          ensureRuns := 1 }

/-- Result of one intercepted `doGenerate`/`doStream` invocation. -/
structure InvokeResult (A : Type) where
  handle : HandleState
  state : ProviderState
  outcome : Except ClientFetchError (RetryOutcome A)
  ensureRuns : Nat
  wrapperCalls : Nat
deriving DecidableEq

/-- One intercepted `doGenerate`/`doStream` invocation on the proxy: obtain
the authenticated client, then issue the call through `callApiWithRetry`. -/
def invokeModelOp {A : Type} (h : HandleState) (st : ProviderState)
    (settingsBaseUrl serverEnvPath procEnvPath : Option String)
    (w : EnsureWorld) (firstCall retryCall : Except ApiError A) : InvokeResult A :=
  let g := getAuthenticatedClient h st settingsBaseUrl serverEnvPath procEnvPath w
  match g.client with
  | .error e => ⟨g.handle, g.state, .error e, g.ensureRuns, 0⟩
  | .ok _cl =>
    let r := callApiWithRetry g.state firstCall retryCall w
    ⟨g.handle, r.state, .ok r.outcome, g.ensureRuns, 1⟩

end QwenCode

namespace GeminiCli

/-- `OAuthCredentials`: the Gemini CLI in-memory credential record (no
`resource_url`). -/
structure Credentials where
  access_token : String
  refresh_token : String
  token_type : String
  expiry_date : Int
deriving DecidableEq

/-- Conversion of the raw parsed JSON into the working record; identical
reasoning to `QwenCode.toCredentials` (the extra `resource_url` field of a
parsed file is simply ignored by this provider). -/
def toCredentials (raw : RawCredentials) : Credentials :=
  { access_token := raw.access_token.getD ""
    refresh_token := raw.refresh_token.getD ""
    token_type := raw.token_type.getD ""
    expiry_date := raw.expiry_date.getD 0 }

/-- `loadCredentials` of the Gemini provider (same shape as Qwen's). -/
def loadCredentials (file : FileContent) : Except CredentialLoadError Credentials :=
  match file with
  | .readFail msg => .error ⟨.fileRead msg⟩
  | .parseFail msg => .error ⟨.parse msg⟩
  | .parsed raw =>
      if jsTruthy raw.access_token && jsTruthy raw.refresh_token then
        .ok (toCredentials raw)
      else
        .error ⟨.missingTokenFields⟩

/-- `saveCredentials` of the Gemini provider: failures are caught and only
logged, never rethrown. -/
def saveCredentials (_credentials : Credentials) (mkdirOk writeOk : Bool) :
    Except String Unit :=
  match QwenCode.attemptSave mkdirOk writeOk with
  | .ok _ => .ok ()
  | .error _ => .ok ()

/-- `TOKEN_REFRESH_BUFFER = 30 * 1000` milliseconds. -/
def TOKEN_REFRESH_BUFFER : Int := 30 * 1000

/-- `isTokenValid` of the Gemini provider. -/
def isTokenValid (credentials : Credentials) (now : Int) : Bool :=
  if credentials.expiry_date == 0 then false
  else decide (now < credentials.expiry_date - TOKEN_REFRESH_BUFFER)

/-- `data.geminiCli` of the remote extension-config JSON; at runtime either
field may be absent. -/
structure OauthConfig where
  oauthClientId : Option String
  oauthClientSecret : Option String
deriving DecidableEq

/-- Provider session state: `_credentials`, `_oauthPath`, `_initialized`,
`_oauthConfig` (the `_projectId` field is declared in the source but never
used). -/
structure ProviderState where
  credentials : Option Credentials
  oauthPath : Option String
  pathResolved : Bool
  oauthConfig : Option OauthConfig
deriving DecidableEq

/-- `initializeOAuthPath` of the Gemini provider (same first-write-wins
logic, reading `GEMINI_CLI_OAUTH_PATH`). -/
def initOAuthPath (st : ProviderState)
    (settingsBaseUrl serverEnvPath procEnvPath : Option String) : ProviderState :=
  if st.pathResolved then st
  else
    { st with
      oauthPath := jsOr settingsBaseUrl (jsOr serverEnvPath procEnvPath)
      pathResolved := true }

/-- Outcome of the `fetch` of the remote extension-config JSON. -/
inductive ConfigFetchOutcome where
  | netFail (msg : String)
  | httpFail (status : Nat) (statusText : String)
  | okBody (geminiCli : Option OauthConfig)
deriving DecidableEq

/-- Errors raised while fetching the OAuth client configuration. -/
inductive ConfigError where
  | network (msg : String)
  | httpStatus (status : Nat) (statusText : String)
  | missingClientCreds
deriving DecidableEq

/-- `fetchOAuthConfig`: return the cached config if present; otherwise fetch
it.  Note the source assigns `_oauthConfig = data.geminiCli` before
validating, so even a rejected body is cached. -/
def fetchOAuthConfig (st : ProviderState) (remote : ConfigFetchOutcome) :
    ProviderState × Except ConfigError OauthConfig :=
  match st.oauthConfig with
  | some cfg => (st, .ok cfg)
  | none =>
    match remote with
    | .netFail msg => (st, .error (.network msg))
    | .httpFail s t => (st, .error (.httpStatus s t))
    | .okBody g =>
      let st' := { st with oauthConfig := g }
      match g with
      | none => (st', .error .missingClientCreds)
      | some cfg =>
        if jsTruthy cfg.oauthClientId && jsTruthy cfg.oauthClientSecret then
          (st', .ok cfg)
        else (st', .error .missingClientCreds)

/-- Errors thrown by the Gemini `performTokenRefresh`. -/
inductive RefreshError where
  | noRefreshToken
  | config (e : ConfigError)
  | network (msg : String)
  | httpStatus (status : Nat) (statusText : String) (body : String)
  | oauthError (err : String) (description : Option String)
  | persistence (msg : String)
deriving DecidableEq

/-- `performTokenRefresh` of the Gemini provider: fetch the OAuth client
config (cached per process), POST to the Google token endpoint, build and
persist the new record.  The state is threaded because the config fetch
caches into `_oauthConfig`. -/
def performTokenRefresh (st : ProviderState) (credentials : Credentials)
    (remoteConfig : ConfigFetchOutcome)
    (fetchResult : Except String TokenResponse)
    (now : Int) (mkdirOk writeOk : Bool) :
    ProviderState × Except RefreshError Credentials :=
  if credentials.refresh_token == "" then (st, .error .noRefreshToken)
  else
    match fetchOAuthConfig st remoteConfig with
    | (st', .error ce) => (st', .error (.config ce))
    | (st', .ok _cfg) =>
      match fetchResult with
      | .error msg => (st', .error (.network msg))
      | .ok response =>
        if response.ok = false then
          (st', .error (.httpStatus response.status response.statusText response.bodyText))
        else if jsTruthy response.error then
          (st', .error (.oauthError (response.error.getD "") response.error_description))
        else
          let newCredentials : Credentials :=
            { credentials with
              access_token := response.access_token
              token_type := jsOrStr response.token_type "Bearer"
              refresh_token := jsOrStr response.refresh_token credentials.refresh_token
              expiry_date := now + response.expires_in * 1000 }
          match saveCredentials newCredentials mkdirOk writeOk with
          | .error msg => (st', .error (.persistence msg))
          | .ok _ => (st', .ok newCredentials)

/-- Every external outcome the ensure-ready path can observe. -/
structure EnsureWorld where
  file : FileContent
  now : Int
  remoteConfig : ConfigFetchOutcome
  fetchResult : Except String TokenResponse
  mkdirOk : Bool
  writeOk : Bool
deriving DecidableEq

/-- Errors surfaced by `ensureAuthenticated`. -/
inductive AuthError where
  | load (e : CredentialLoadError)
  | refresh (e : RefreshError)
deriving DecidableEq

/-- Result of one `ensureAuthenticated` run: new state, the access token or
the propagated error, and the effect trace. -/
structure EnsureResult where
  state : ProviderState
  result : Except AuthError String
  trace : EnsureTrace
deriving DecidableEq

/-- `ensureAuthenticated` after a record `c` is cached: validity check and
refresh on expiry; a failed refresh leaves `_credentials` untouched. -/
def ensureWith (st : ProviderState) (c : Credentials) (w : EnsureWorld)
    (loads : Nat) : EnsureResult :=
  if isTokenValid c w.now then ⟨st, .ok c.access_token, ⟨loads, 0⟩⟩
  else
    match performTokenRefresh st c w.remoteConfig w.fetchResult w.now w.mkdirOk w.writeOk with
    | (st', .error e) => ⟨st', .error (.refresh e), ⟨loads, 1⟩⟩
    | (st', .ok c') => ⟨{ st' with credentials := some c' }, .ok c'.access_token, ⟨loads, 1⟩⟩

/-- `ensureAuthenticated`: resolve the path, load the record if absent,
refresh if expired, return the access token. -/
def ensureAuthenticated (st : ProviderState)
    (settingsBaseUrl serverEnvPath procEnvPath : Option String)
    (w : EnsureWorld) : EnsureResult :=
  let st1 := initOAuthPath st settingsBaseUrl serverEnvPath procEnvPath
  match st1.credentials with
  | some c => ensureWith st1 c w 0
  | none =>
    match loadCredentials w.file with
    | .error e => ⟨st1, .error (.load e), ⟨1, 0⟩⟩
    | .ok c => ensureWith { st1 with credentials := some c } c w 1

/-- What `callApiWithRetry` produces (Gemini). -/
inductive RetryOutcome (A : Type) where
  | success (a : A)
  | apiFailure (e : QwenCode.ApiError)
  | refreshFailure (e : RefreshError)
deriving DecidableEq

/-- Result of the Gemini `callApiWithRetry` with invocation counts. -/
structure RetryResult (A : Type) where
  state : ProviderState
  outcome : RetryOutcome A
  apiInvocations : Nat
  refreshCalls : Nat
deriving DecidableEq

/-- `callApiWithRetry` of the Gemini provider: identical retry policy. -/
def callApiWithRetry {A : Type} (st : ProviderState)
    (firstCall retryCall : Except QwenCode.ApiError A) (w : EnsureWorld) :
    RetryResult A :=
  match firstCall with
  | .ok a => ⟨st, .success a, 1, 0⟩
  | .error e =>
    match st.credentials with
    | some c =>
      if e.status == some 401 then
        match performTokenRefresh st c w.remoteConfig w.fetchResult w.now w.mkdirOk w.writeOk with
        | (st', .error re) => ⟨st', .refreshFailure re, 1, 1⟩
        | (st', .ok c') =>
          let st'' := { st' with credentials := some c' }
          match retryCall with
          | .ok a => ⟨st'', .success a, 2, 1⟩
          | .error e2 => ⟨st'', .apiFailure e2, 2, 1⟩
      else ⟨st, .apiFailure e, 1, 0⟩
    | none => ⟨st, .apiFailure e, 1, 0⟩

/-- `getDynamicModels` of the Gemini provider: returns `[]` in every branch
(authentication success included); failures are all caught. -/
def getDynamicModels (inBrowser : Bool) (st : ProviderState)
    (settingsBaseUrl serverEnvPath procEnvPath : Option String)
    (w : EnsureWorld) : ProviderState × List QwenCode.ModelInfo :=
  if inBrowser then (st, [])
  else
    let st1 := initOAuthPath st settingsBaseUrl serverEnvPath procEnvPath
    let er := ensureAuthenticated st1 settingsBaseUrl serverEnvPath procEnvPath w
    (er.state, [])

/-- The Google Generative AI client is bound only to the access token. -/
structure Client where
  apiKey : String
deriving DecidableEq

/-- Closure state of the Gemini model handle.  Unlike Qwen, `clientPromise`
is assigned only after `ensureAuthenticated` succeeds, so a failure leaves
it `none` and the next invocation retries authentication. -/
structure HandleState where
  clientPromise : Option Client
  initInProgress : Bool
deriving DecidableEq

/-- How a Gemini generate/stream invocation fails before the API call. -/
inductive ClientFetchError where
  | wrappedAuth (e : AuthError)
  | inProgress
deriving DecidableEq

/-- Result of one Gemini `getAuthenticatedClient` call. -/
structure GetClientResult where
  handle : HandleState
  state : ProviderState
  client : Except ClientFetchError Client
  ensureRuns : Nat
deriving DecidableEq

/-- `getAuthenticatedClient` of the Gemini provider. -/
def getAuthenticatedClient (h : HandleState) (st : ProviderState)
    (settingsBaseUrl serverEnvPath procEnvPath : Option String)
    (w : EnsureWorld) : GetClientResult :=
  match h.clientPromise with
  | some cached => { handle := h, state := st, client := .ok cached, ensureRuns := 0 }
  | none =>
      if h.initInProgress then
        { handle := h, state := st, client := .error .inProgress, ensureRuns := 0 }
      else
        let er := ensureAuthenticated st settingsBaseUrl serverEnvPath procEnvPath w
        match er.result with
        | .ok token =>
            { handle := { clientPromise := some ⟨token⟩, initInProgress := false }
              state := er.state, client := .ok ⟨token⟩, ensureRuns := 1 }
        | .error e =>
            { handle := { clientPromise := none, initInProgress := false }
              state := er.state, client := .error (.wrappedAuth e), ensureRuns := 1 }

/-- Result of one intercepted Gemini `doGenerate`/`doStream` invocation. -/
structure InvokeResult (A : Type) where
  handle : HandleState
  state : ProviderState
  outcome : Except ClientFetchError (RetryOutcome A)
  ensureRuns : Nat
  wrapperCalls : Nat
deriving DecidableEq

/-- One intercepted Gemini `doGenerate`/`doStream` invocation. -/
def invokeModelOp {A : Type} (h : HandleState) (st : ProviderState)
    (settingsBaseUrl serverEnvPath procEnvPath : Option String)
    (w : EnsureWorld) (firstCall retryCall : Except QwenCode.ApiError A) :
    InvokeResult A :=
  let g := getAuthenticatedClient h st settingsBaseUrl serverEnvPath procEnvPath w
  match g.client with
  | .error e => ⟨g.handle, g.state, .error e, g.ensureRuns, 0⟩
  | .ok _cl =>
    let r := callApiWithRetry g.state firstCall retryCall w
    ⟨g.handle, r.state, .ok r.outcome, g.ensureRuns, 1⟩

end GeminiCli

namespace SingleFlight

/-!
Interleaving model of `refreshAccessToken` (identical in both providers):

```
if (this._refreshPromise) return await this._refreshPromise;
this._refreshPromise = this.performTokenRefresh(credentials);
try { return await this._refreshPromise; } finally { this._refreshPromise = null; }
```

JavaScript's run-to-completion semantics makes the check of
`_refreshPromise` and its assignment atomic (no `await` separates them:
`performTokenRefresh` runs synchronously up to its first suspension point),
so each call to `refreshAccessToken` is one atomic `enter` step: either it
observes a non-null slot and joins that operation, or it starts a new
`performTokenRefresh` (one network refresh) and becomes its leader.  The
network operation settling, and each caller's `await` resuming with the
settled value, are further atomic steps.  The leader's `finally` clears the
slot when its own `await` resumes, i.e. only after the shared operation has
settled.  `R` is the operation's result type; for this program it is the
refresh outcome (a new credential record or a refresh error).
-/

/-- A `performTokenRefresh` promise: still pending, or settled with `r`
(fulfilled or rejected). -/
inductive OpState (R : Type) where
  | pending
  | settled (r : R)
deriving DecidableEq

/-- Where one caller of `refreshAccessToken` stands. -/
inductive CallerPhase (R : Type) where
  | ready
  | waitingJoin (op : Nat)
  | waitingLead (op : Nat)
  | finished (r : R)
deriving DecidableEq

/-- Step labels: a caller entering `refreshAccessToken`, a refresh
operation settling, a caller's `await` resuming. -/
inductive RLabel where
  | enter
  | settle
  | resume
deriving DecidableEq

/-- Shared state: the callers, the `_refreshPromise` slot (an operation
index), all refresh operations ever started, and the number of network
refresh calls issued. -/
structure RefreshSys (R : Type) where
  callers : List (CallerPhase R)
  slot : Option Nat
  ops : List (OpState R)
  netCalls : Nat
deriving DecidableEq

/-- Initial state: `n` callers about to call `refreshAccessToken`, no
refresh in flight. -/
def initSys (R : Type) (n : Nat) : RefreshSys R :=
  ⟨List.replicate n .ready, none, [], 0⟩

/-- The atomic steps of the single-flight protocol. -/
inductive RStep {R : Type} : RefreshSys R → RLabel → RefreshSys R → Prop where
  | join (s : RefreshSys R) (i op : Nat) :
      s.callers.get? i = some .ready → s.slot = some op →
      RStep s .enter { s with callers := s.callers.set i (.waitingJoin op) }
  | lead (s : RefreshSys R) (i : Nat) :
      s.callers.get? i = some .ready → s.slot = none →
      RStep s .enter
        { s with
          callers := s.callers.set i (.waitingLead s.ops.length)
          slot := some s.ops.length
          ops := s.ops ++ [.pending]
          netCalls := s.netCalls + 1 }
  | settleOp (s : RefreshSys R) (op : Nat) (r : R) :
      s.ops.get? op = some .pending →
      RStep s .settle { s with ops := s.ops.set op (.settled r) }
  | resumeJoin (s : RefreshSys R) (i op : Nat) (r : R) :
      s.callers.get? i = some (.waitingJoin op) →
      s.ops.get? op = some (.settled r) →
      RStep s .resume { s with callers := s.callers.set i (.finished r) }
  | resumeLead (s : RefreshSys R) (i op : Nat) (r : R) :
      s.callers.get? i = some (.waitingLead op) →
      s.ops.get? op = some (.settled r) →
      RStep s .resume
        { s with callers := s.callers.set i (.finished r), slot := none }

/-- Executions of the scenario "N concurrent callers": a sequence of steps
in which a refresh operation settles only once every caller has entered
`refreshAccessToken` (the callers are concurrent with the in-flight
refresh). -/
inductive ScenTrace {R : Type} : RefreshSys R → RefreshSys R → Prop where
  | refl (s : RefreshSys R) : ScenTrace s s
  | step {s s' s'' : RefreshSys R} {l : RLabel} :
      RStep s l s' →
      (l = .settle → ∀ c ∈ s.callers, c ≠ CallerPhase.ready) →
      ScenTrace s' s'' → ScenTrace s s''

end SingleFlight

/-! ### Theorems -/

/-- Claim C3: the token validator returns `true` exactly when `expiry_date`
is present (non-zero) and `expiry_date > now + 30000` ms; it returns `false`
whenever `expiry_date ≤ now + 30000`, and `false` for an absent/zero
`expiry_date` regardless of `now`.  The embedded function is pure. Both
providers. -/
theorem claim_C3_token_validator (c : QwenCode.Credentials)
    (g : GeminiCli.Credentials) (now : Int) :
    (QwenCode.isTokenValid c now = true ↔
      (c.expiry_date ≠ 0 ∧ now + 30000 < c.expiry_date))
  ∧ (QwenCode.isTokenValid c now = false ↔
      (c.expiry_date = 0 ∨ c.expiry_date ≤ now + 30000))
  ∧ (GeminiCli.isTokenValid g now = true ↔
      (g.expiry_date ≠ 0 ∧ now + 30000 < g.expiry_date))
  ∧ (GeminiCli.isTokenValid g now = false ↔
      (g.expiry_date = 0 ∨ g.expiry_date ≤ now + 30000)) := by
  refine ⟨?_, ?_, ?_, ?_⟩ <;>
    simp only [QwenCode.isTokenValid, GeminiCli.isTokenValid,
      QwenCode.TOKEN_REFRESH_BUFFER, GeminiCli.TOKEN_REFRESH_BUFFER] <;>
    by_cases h : c.expiry_date = 0 <;>
    by_cases hg : g.expiry_date = 0 <;>
    simp [h, hg] <;> omega

/-- Helper: the Qwen `saveCredentials` never throws. -/
theorem qwen_save_ok (c : QwenCode.Credentials) (mk w : Bool) :
    QwenCode.saveCredentials c mk w = .ok () := by
  cases mk <;> cases w <;> rfl

/-- Helper: the Gemini `saveCredentials` never throws. -/
theorem gemini_save_ok (c : GeminiCli.Credentials) (mk w : Bool) :
    GeminiCli.saveCredentials c mk w = .ok () := by
  cases mk <;> cases w <;> rfl

/-- Helper: the Qwen refresh result does not depend on persistence
outcomes. -/
theorem qwen_refresh_indep (c : QwenCode.Credentials)
    (fr : Except String TokenResponse) (now : Int) (mk w : Bool) :
    QwenCode.performTokenRefresh c fr now mk w =
      QwenCode.performTokenRefresh c fr now true true := by
  simp only [QwenCode.performTokenRefresh, qwen_save_ok]

/-- Helper: the Gemini refresh result does not depend on persistence
outcomes. -/
theorem gemini_refresh_indep (st : GeminiCli.ProviderState)
    (c : GeminiCli.Credentials) (rc : GeminiCli.ConfigFetchOutcome)
    (fr : Except String TokenResponse) (now : Int) (mk w : Bool) :
    GeminiCli.performTokenRefresh st c rc fr now mk w =
      GeminiCli.performTokenRefresh st c rc fr now true true := by
  simp only [GeminiCli.performTokenRefresh, gemini_save_ok]

/-- Helper: `ensureWith` (Qwen) does not depend on persistence outcomes. -/
theorem qwen_ensureWith_indep (st : QwenCode.ProviderState)
    (c : QwenCode.Credentials) (file : FileContent) (now : Int)
    (fr : Except String TokenResponse) (mk w : Bool) (loads : Nat) :
    QwenCode.ensureWith st c ⟨file, now, fr, mk, w⟩ loads =
      QwenCode.ensureWith st c ⟨file, now, fr, true, true⟩ loads := by
  simp only [QwenCode.ensureWith]
  rw [qwen_refresh_indep]

/-- Helper: `ensureClient` does not depend on persistence outcomes. -/
theorem qwen_ensure_indep (st : QwenCode.ProviderState)
    (a b p : Option String) (file : FileContent) (now : Int)
    (fr : Except String TokenResponse) (mk w : Bool) :
    QwenCode.ensureClient st a b p ⟨file, now, fr, mk, w⟩ =
      QwenCode.ensureClient st a b p ⟨file, now, fr, true, true⟩ := by
  simp only [QwenCode.ensureClient]
  cases (QwenCode.initOAuthPath st a b p).credentials
  · cases QwenCode.loadCredentials file
    · rfl
    · exact qwen_ensureWith_indep ..
  · exact qwen_ensureWith_indep ..

/-- Helper: `ensureWith` (Gemini) does not depend on persistence
outcomes. -/
theorem gemini_ensureWith_indep (st : GeminiCli.ProviderState)
    (c : GeminiCli.Credentials) (file : FileContent) (now : Int)
    (rc : GeminiCli.ConfigFetchOutcome) (fr : Except String TokenResponse)
    (mk w : Bool) (loads : Nat) :
    GeminiCli.ensureWith st c ⟨file, now, rc, fr, mk, w⟩ loads =
      GeminiCli.ensureWith st c ⟨file, now, rc, fr, true, true⟩ loads := by
  simp only [GeminiCli.ensureWith]
  rw [gemini_refresh_indep]

/-- Helper: `ensureAuthenticated` does not depend on persistence
outcomes. -/
theorem gemini_ensure_indep (st : GeminiCli.ProviderState)
    (a b p : Option String) (file : FileContent) (now : Int)
    (rc : GeminiCli.ConfigFetchOutcome) (fr : Except String TokenResponse)
    (mk w : Bool) :
    GeminiCli.ensureAuthenticated st a b p ⟨file, now, rc, fr, mk, w⟩ =
      GeminiCli.ensureAuthenticated st a b p ⟨file, now, rc, fr, true, true⟩ := by
  simp only [GeminiCli.ensureAuthenticated]
  cases (GeminiCli.initOAuthPath st a b p).credentials
  · cases GeminiCli.loadCredentials file
    · rfl
    · exact gemini_ensureWith_indep ..
  · exact gemini_ensureWith_indep ..

/-- Claim C5: `saveCredentials` never throws — persistence failures (write
or directory creation) are only logged; the refresh returns the same
in-memory record regardless of persistence outcome; and no persistence
error surfaces through the ensure-ready path (its entire result is
independent of the persistence outcomes).  Both providers. -/
theorem claim_C5_save_failures_non_fatal :
    (∀ (c : QwenCode.Credentials) (mk w : Bool),
        QwenCode.saveCredentials c mk w = .ok ())
  ∧ (∀ (c : GeminiCli.Credentials) (mk w : Bool),
        GeminiCli.saveCredentials c mk w = .ok ())
  ∧ (∀ (c : QwenCode.Credentials) (fr : Except String TokenResponse)
        (now : Int) (mk w : Bool),
        QwenCode.performTokenRefresh c fr now mk w =
          QwenCode.performTokenRefresh c fr now true true)
  ∧ (∀ (st : GeminiCli.ProviderState) (c : GeminiCli.Credentials)
        (rc : GeminiCli.ConfigFetchOutcome) (fr : Except String TokenResponse)
        (now : Int) (mk w : Bool),
        GeminiCli.performTokenRefresh st c rc fr now mk w =
          GeminiCli.performTokenRefresh st c rc fr now true true)
  ∧ (∀ (st : QwenCode.ProviderState) (a b p : Option String)
        (file : FileContent) (now : Int) (fr : Except String TokenResponse)
        (mk w : Bool),
        QwenCode.ensureClient st a b p ⟨file, now, fr, mk, w⟩ =
          QwenCode.ensureClient st a b p ⟨file, now, fr, true, true⟩)
  ∧ (∀ (st : GeminiCli.ProviderState) (a b p : Option String)
        (file : FileContent) (now : Int) (rc : GeminiCli.ConfigFetchOutcome)
        (fr : Except String TokenResponse) (mk w : Bool),
        GeminiCli.ensureAuthenticated st a b p ⟨file, now, rc, fr, mk, w⟩ =
          GeminiCli.ensureAuthenticated st a b p ⟨file, now, rc, fr, true, true⟩) :=
  ⟨qwen_save_ok, gemini_save_ok, qwen_refresh_indep, gemini_refresh_indep,
    qwen_ensure_indep, gemini_ensure_indep⟩

/-- Claim C8: configuration resolution is idempotent, first-write-wins: the
first `initializeOAuthPath` call fixes the path from settings, server env,
process env in that priority order; any later call (any inputs) leaves the
state unchanged.  Both providers. -/
theorem claim_C8_first_write_wins (stq : QwenCode.ProviderState)
    (stg : GeminiCli.ProviderState) (a b p a' b' p' : Option String) :
    (stq.pathResolved = false →
        (QwenCode.initOAuthPath stq a b p).oauthPath = jsOr a (jsOr b p) ∧
        (QwenCode.initOAuthPath stq a b p).pathResolved = true)
  ∧ (stq.pathResolved = true → QwenCode.initOAuthPath stq a b p = stq)
  ∧ (QwenCode.initOAuthPath (QwenCode.initOAuthPath stq a b p) a' b' p' =
        QwenCode.initOAuthPath stq a b p)
  ∧ (stg.pathResolved = false →
        (GeminiCli.initOAuthPath stg a b p).oauthPath = jsOr a (jsOr b p) ∧
        (GeminiCli.initOAuthPath stg a b p).pathResolved = true)
  ∧ (stg.pathResolved = true → GeminiCli.initOAuthPath stg a b p = stg)
  ∧ (GeminiCli.initOAuthPath (GeminiCli.initOAuthPath stg a b p) a' b' p' =
        GeminiCli.initOAuthPath stg a b p)
  ∧ (jsTruthy a = true → jsOr a (jsOr b p) = a)
  ∧ (jsTruthy a = false → jsTruthy b = true → jsOr a (jsOr b p) = b)
  ∧ (jsTruthy a = false → jsTruthy b = false → jsOr a (jsOr b p) = p) := by
  refine ⟨?_, ?_, ?_, ?_, ?_, ?_, ?_, ?_, ?_⟩ <;>
    [skip; skip; by_cases hq : stq.pathResolved = true; skip; skip;
      by_cases hgr : stg.pathResolved = true; skip; skip; skip] <;>
    simp only [QwenCode.initOAuthPath, GeminiCli.initOAuthPath, jsOr] <;>
    intros <;> simp_all

/-- Witness for claim C8 at concrete inputs. -/
theorem claim_C8_first_write_wins_witness :
    ((QwenCode.initOAuthPath ⟨none, none, false, none⟩ (some "~/x.json") none none).oauthPath
        = some "~/x.json")
  ∧ (QwenCode.initOAuthPath ⟨none, some "kept", true, none⟩ (some "other") none none
        = ⟨none, some "kept", true, none⟩)
  ∧ (jsOr (some "") (jsOr (some "env") none) = some "env") := by
  have h := claim_C8_first_write_wins ⟨none, none, false, none⟩
    ⟨none, none, false, none⟩ (some "~/x.json") none none (some "other") none none
  have h2 := claim_C8_first_write_wins ⟨none, some "kept", true, none⟩
    ⟨none, none, false, none⟩ (some "other") none none none none none
  refine ⟨?_, ?_, ?_⟩
  · rw [(h.1 rfl).1]; rfl
  · exact h2.2.1 rfl
  · have h3 := claim_C8_first_write_wins ⟨none, none, false, none⟩
      ⟨none, none, false, none⟩ (some "") (some "env") none none none none
    exact h3.2.2.2.2.2.2.2.1 rfl rfl

/-- Helper: path resolution does not touch the cached credentials (Qwen). -/
theorem qwen_init_creds (st : QwenCode.ProviderState) (a b p : Option String) :
    (QwenCode.initOAuthPath st a b p).credentials = st.credentials := by
  unfold QwenCode.initOAuthPath; split <;> rfl

/-- Helper: path resolution does not touch the cached credentials
(Gemini). -/
theorem gemini_init_creds (st : GeminiCli.ProviderState) (a b p : Option String) :
    (GeminiCli.initOAuthPath st a b p).credentials = st.credentials := by
  unfold GeminiCli.initOAuthPath; split <;> rfl

/-- Helper: `ensureWith` (Qwen) performs exactly the loads of its caller. -/
theorem qwen_ensureWith_loads (st : QwenCode.ProviderState)
    (c : QwenCode.Credentials) (w : QwenCode.EnsureWorld) (l : Nat) :
    (QwenCode.ensureWith st c w l).trace.loads = l := by
  unfold QwenCode.ensureWith QwenCode.finishClient
  split
  · rfl
  · split <;> rfl

/-- Helper: `ensureWith` (Gemini) performs exactly the loads of its
caller. -/
theorem gemini_ensureWith_loads (st : GeminiCli.ProviderState)
    (c : GeminiCli.Credentials) (w : GeminiCli.EnsureWorld) (l : Nat) :
    (GeminiCli.ensureWith st c w l).trace.loads = l := by
  unfold GeminiCli.ensureWith
  split
  · rfl
  · split <;> rfl

/-- Helper: with a cached record, `ensureClient` never reloads the file. -/
theorem qwen_cached_no_load (st : QwenCode.ProviderState)
    (a b p : Option String) (w : QwenCode.EnsureWorld)
    (h : st.credentials.isSome = true) :
    (QwenCode.ensureClient st a b p w).trace.loads = 0 := by
  obtain ⟨c, hc⟩ := Option.isSome_iff_exists.mp h
  unfold QwenCode.ensureClient
  simp only [qwen_init_creds, hc]
  exact qwen_ensureWith_loads ..

/-- Helper: with a cached record, `ensureAuthenticated` never reloads the
file. -/
theorem gemini_cached_no_load (st : GeminiCli.ProviderState)
    (a b p : Option String) (w : GeminiCli.EnsureWorld)
    (h : st.credentials.isSome = true) :
    (GeminiCli.ensureAuthenticated st a b p w).trace.loads = 0 := by
  obtain ⟨c, hc⟩ := Option.isSome_iff_exists.mp h
  unfold GeminiCli.ensureAuthenticated
  simp only [gemini_init_creds, hc]
  exact gemini_ensureWith_loads ..

/-- Helper: `ensureWith` (Qwen) keeps some record cached whenever its caller
had one. -/
theorem qwen_ensureWith_creds (st : QwenCode.ProviderState)
    (c : QwenCode.Credentials) (w : QwenCode.EnsureWorld) (l : Nat)
    (h : st.credentials.isSome = true) :
    (QwenCode.ensureWith st c w l).state.credentials.isSome = true := by
  unfold QwenCode.ensureWith QwenCode.finishClient
  split
  · rfl
  · split
    · exact h
    · rfl

/-- Helper: the Gemini config fetch does not touch the cached
credentials. -/
theorem gemini_config_creds (st : GeminiCli.ProviderState)
    (rc : GeminiCli.ConfigFetchOutcome) :
    (GeminiCli.fetchOAuthConfig st rc).1.credentials = st.credentials := by
  unfold GeminiCli.fetchOAuthConfig
  split
  · rfl
  · split
    · rfl
    · rfl
    · split
      · rfl
      · split <;> rfl

/-- Helper: the Gemini refresh never changes the cached credentials field
(it assigns only `_oauthConfig`; the caller assigns `_credentials` on
success). -/
theorem gemini_refresh_creds (st : GeminiCli.ProviderState)
    (c : GeminiCli.Credentials) (rc : GeminiCli.ConfigFetchOutcome)
    (fr : Except String TokenResponse) (now : Int) (mk w : Bool) :
    (GeminiCli.performTokenRefresh st c rc fr now mk w).1.credentials =
      st.credentials := by
  unfold GeminiCli.performTokenRefresh
  split
  · rfl
  · split
    · rename_i st' ce heq
      have h1 : (GeminiCli.fetchOAuthConfig st rc).1 = st' := by rw [heq]
      rw [← h1, gemini_config_creds]
    · rename_i st' cfg heq
      have h1 : (GeminiCli.fetchOAuthConfig st rc).1 = st' := by rw [heq]
      split
      · rw [← h1, gemini_config_creds]
      · split
        · rw [← h1, gemini_config_creds]
        · split
          · rw [← h1, gemini_config_creds]
          · simp only [gemini_save_ok]
            rw [← h1, gemini_config_creds]

/-- Helper: `ensureWith` (Gemini) keeps some record cached whenever its
caller had one. -/
theorem gemini_ensureWith_creds (st : GeminiCli.ProviderState)
    (c : GeminiCli.Credentials) (w : GeminiCli.EnsureWorld) (l : Nat)
    (h : st.credentials.isSome = true) :
    (GeminiCli.ensureWith st c w l).state.credentials.isSome = true := by
  unfold GeminiCli.ensureWith
  split
  · exact h
  · split
    · rename_i st' e heq
      have h1 : (GeminiCli.performTokenRefresh st c w.remoteConfig w.fetchResult w.now w.mkdirOk w.writeOk).1 = st' := by
        rw [heq]
      show st'.credentials.isSome = true
      rw [← h1, gemini_refresh_creds]
      exact h
    · rfl

/-- Helper: a successful `ensureClient` leaves a record cached. -/
theorem qwen_ensure_ok_caches (st : QwenCode.ProviderState)
    (a b p : Option String) (w : QwenCode.EnsureWorld)
    (h : (QwenCode.ensureClient st a b p w).result.isOk = true) :
    (QwenCode.ensureClient st a b p w).state.credentials.isSome = true := by
  unfold QwenCode.ensureClient at h ⊢
  rcases hc : (QwenCode.initOAuthPath st a b p).credentials with _ | c <;>
    simp only [hc] at h ⊢
  · rcases hl : QwenCode.loadCredentials w.file with e | c <;>
      simp only [hl] at h ⊢
    · simp [Except.toBool] at h
    · exact qwen_ensureWith_creds _ _ _ _ rfl
  · exact qwen_ensureWith_creds _ _ _ _ (by rw [hc]; rfl)

/-- Helper: a successful `ensureAuthenticated` leaves a record cached. -/
theorem gemini_ensure_ok_caches (st : GeminiCli.ProviderState)
    (a b p : Option String) (w : GeminiCli.EnsureWorld)
    (h : (GeminiCli.ensureAuthenticated st a b p w).result.isOk = true) :
    (GeminiCli.ensureAuthenticated st a b p w).state.credentials.isSome = true := by
  unfold GeminiCli.ensureAuthenticated at h ⊢
  rcases hc : (GeminiCli.initOAuthPath st a b p).credentials with _ | c <;>
    simp only [hc] at h ⊢
  · rcases hl : GeminiCli.loadCredentials w.file with e | c <;>
      simp only [hl] at h ⊢
    · simp [Except.toBool] at h
    · exact gemini_ensureWith_creds _ _ _ _ rfl
  · exact gemini_ensureWith_creds _ _ _ _ (by rw [hc]; rfl)

/-- Claim C6: `loadCredentials` fails with a `CredentialLoadError` carrying
the underlying cause exactly when the file is missing/unreadable, malformed
JSON, or missing (falsy) `access_token` or `refresh_token`; a well-formed
file with both token fields loads successfully, and the ensure-ready path
caches the record: a call that starts with a cached record performs zero
file loads, and any call following a successful one performs zero file
loads.  Both providers. -/
theorem claim_C6_load_credentials (msg : String) (raw : RawCredentials)
    (stq : QwenCode.ProviderState) (aq bq pq aq' bq' pq' : Option String)
    (wq wq' : QwenCode.EnsureWorld) (cq : QwenCode.Credentials)
    (stg : GeminiCli.ProviderState) (ag bg pg ag' bg' pg' : Option String)
    (wg wg' : GeminiCli.EnsureWorld) (cg : GeminiCli.Credentials) :
    (QwenCode.loadCredentials (.readFail msg) = .error ⟨.fileRead msg⟩)
  ∧ (QwenCode.loadCredentials (.parseFail msg) = .error ⟨.parse msg⟩)
  ∧ (jsTruthy raw.access_token = false ∨ jsTruthy raw.refresh_token = false →
      QwenCode.loadCredentials (.parsed raw) = .error ⟨.missingTokenFields⟩)
  ∧ (jsTruthy raw.access_token = true → jsTruthy raw.refresh_token = true →
      QwenCode.loadCredentials (.parsed raw) = .ok (QwenCode.toCredentials raw))
  ∧ (stq.credentials = some cq →
      (QwenCode.ensureClient stq aq bq pq wq).trace.loads = 0)
  ∧ ((QwenCode.ensureClient stq aq bq pq wq).result.isOk = true →
      (QwenCode.ensureClient (QwenCode.ensureClient stq aq bq pq wq).state
        aq' bq' pq' wq').trace.loads = 0)
  ∧ (GeminiCli.loadCredentials (.readFail msg) = .error ⟨.fileRead msg⟩)
  ∧ (GeminiCli.loadCredentials (.parseFail msg) = .error ⟨.parse msg⟩)
  ∧ (jsTruthy raw.access_token = false ∨ jsTruthy raw.refresh_token = false →
      GeminiCli.loadCredentials (.parsed raw) = .error ⟨.missingTokenFields⟩)
  ∧ (jsTruthy raw.access_token = true → jsTruthy raw.refresh_token = true →
      GeminiCli.loadCredentials (.parsed raw) = .ok (GeminiCli.toCredentials raw))
  ∧ (stg.credentials = some cg →
      (GeminiCli.ensureAuthenticated stg ag bg pg wg).trace.loads = 0)
  ∧ ((GeminiCli.ensureAuthenticated stg ag bg pg wg).result.isOk = true →
      (GeminiCli.ensureAuthenticated
        (GeminiCli.ensureAuthenticated stg ag bg pg wg).state
        ag' bg' pg' wg').trace.loads = 0) := by
  refine ⟨rfl, rfl, ?_, ?_, ?_, ?_, rfl, rfl, ?_, ?_, ?_, ?_⟩
  · intro h
    unfold QwenCode.loadCredentials
    rcases h with h | h <;> simp [h]
  · intro h1 h2
    unfold QwenCode.loadCredentials
    simp [h1, h2]
  · intro h
    exact qwen_cached_no_load _ _ _ _ _ (by rw [h]; rfl)
  · intro h
    exact qwen_cached_no_load _ _ _ _ _ (qwen_ensure_ok_caches _ _ _ _ _ h)
  · intro h
    unfold GeminiCli.loadCredentials
    rcases h with h | h <;> simp [h]
  · intro h1 h2
    unfold GeminiCli.loadCredentials
    simp [h1, h2]
  · intro h
    exact gemini_cached_no_load _ _ _ _ _ (by rw [h]; rfl)
  · intro h
    exact gemini_cached_no_load _ _ _ _ _ (gemini_ensure_ok_caches _ _ _ _ _ h)

/-- Helper: `ensureWith` (Qwen) keeps the pre-refresh record when the
refresh fails. -/
theorem qwen_ensureWith_fail_pres (st : QwenCode.ProviderState)
    (c : QwenCode.Credentials) (w : QwenCode.EnsureWorld) (l : Nat)
    (e : QwenCode.RefreshError) (hcred : st.credentials = some c)
    (hfail : QwenCode.performTokenRefresh c w.fetchResult w.now w.mkdirOk w.writeOk =
      .error e) :
    (QwenCode.ensureWith st c w l).state.credentials = some c := by
  unfold QwenCode.ensureWith QwenCode.finishClient
  split
  · rfl
  · simp only [hfail]
    exact hcred

/-- Helper: `ensureWith` (Gemini) keeps the pre-refresh record when the
refresh fails. -/
theorem gemini_ensureWith_fail_pres (st : GeminiCli.ProviderState)
    (c : GeminiCli.Credentials) (w : GeminiCli.EnsureWorld) (l : Nat)
    (hcred : st.credentials = some c)
    (hfail : (GeminiCli.performTokenRefresh st c w.remoteConfig w.fetchResult
      w.now w.mkdirOk w.writeOk).2.isOk = false) :
    (GeminiCli.ensureWith st c w l).state.credentials = some c := by
  unfold GeminiCli.ensureWith
  split
  · exact hcred
  · split
    · rename_i st' e' heq
      have h1 : (GeminiCli.performTokenRefresh st c w.remoteConfig w.fetchResult
          w.now w.mkdirOk w.writeOk).1 = st' := by rw [heq]
      show st'.credentials = some c
      rw [← h1, gemini_refresh_creds]
      exact hcred
    · rename_i st' c' heq
      rw [heq] at hfail
      simp [Except.isOk, Except.toBool] at hfail

/-- Claim C4: on a successful token-endpoint response, the refreshed record
has the response's `access_token`; the response's `token_type`, defaulting
to "Bearer" when the response omits one (absent or empty, the code's falsy
check); the response's `refresh_token`, falling back to the prior record's
when omitted; and `expiry_date = now + expires_in * 1000`.  Both
providers. -/
theorem claim_C4_refreshed_record (c : QwenCode.Credentials)
    (resp : TokenResponse) (now : Int) (mk w : Bool)
    (gst : GeminiCli.ProviderState) (cg : GeminiCli.Credentials)
    (rc : GeminiCli.ConfigFetchOutcome)
    (hrt : c.refresh_token ≠ "") (hok : resp.ok = true)
    (herr : jsTruthy resp.error = false) (hgrt : cg.refresh_token ≠ "")
    (hcfg : ∃ st2 cfg, GeminiCli.fetchOAuthConfig gst rc = (st2, Except.ok cfg)) :
    (∃ r, QwenCode.performTokenRefresh c (.ok resp) now mk w = .ok r ∧
      r.access_token = resp.access_token ∧
      r.token_type = jsOrStr resp.token_type "Bearer" ∧
      r.refresh_token = jsOrStr resp.refresh_token c.refresh_token ∧
      r.expiry_date = now + resp.expires_in * 1000 ∧
      r.resource_url = c.resource_url)
  ∧ (∃ st2 r, GeminiCli.performTokenRefresh gst cg rc (.ok resp) now mk w =
        (st2, .ok r) ∧
      r.access_token = resp.access_token ∧
      r.token_type = jsOrStr resp.token_type "Bearer" ∧
      r.refresh_token = jsOrStr resp.refresh_token cg.refresh_token ∧
      r.expiry_date = now + resp.expires_in * 1000)
  ∧ (jsTruthy resp.token_type = false → jsOrStr resp.token_type "Bearer" = "Bearer")
  ∧ (∀ s, resp.token_type = some s → s ≠ "" → jsOrStr resp.token_type "Bearer" = s)
  ∧ (∀ fallback : String, jsTruthy resp.refresh_token = false →
      jsOrStr resp.refresh_token fallback = fallback)
  ∧ (∀ (fallback s : String), resp.refresh_token = some s → s ≠ "" →
      jsOrStr resp.refresh_token fallback = s) := by
  have hrtb : (c.refresh_token == "") = false := by simp [hrt]
  have hgrtb : (cg.refresh_token == "") = false := by simp [hgrt]
  refine ⟨?_, ?_, ?_, ?_, ?_, ?_⟩
  · have heq : QwenCode.performTokenRefresh c (.ok resp) now mk w =
        .ok { c with
              access_token := resp.access_token
              token_type := jsOrStr resp.token_type "Bearer"
              refresh_token := jsOrStr resp.refresh_token c.refresh_token
              expiry_date := now + resp.expires_in * 1000 } := by
      unfold QwenCode.performTokenRefresh
      simp [hrtb, hok, herr, qwen_save_ok]
    exact ⟨_, heq, rfl, rfl, rfl, rfl, rfl⟩
  · obtain ⟨st2, cfg, hcf⟩ := hcfg
    have heq : GeminiCli.performTokenRefresh gst cg rc (.ok resp) now mk w =
        (st2, .ok { cg with
              access_token := resp.access_token
              token_type := jsOrStr resp.token_type "Bearer"
              refresh_token := jsOrStr resp.refresh_token cg.refresh_token
              expiry_date := now + resp.expires_in * 1000 }) := by
      unfold GeminiCli.performTokenRefresh
      simp [hgrtb, hcf, hok, herr, gemini_save_ok]
    exact ⟨st2, _, heq, rfl, rfl, rfl, rfl⟩
  · intro h
    rcases ht : resp.token_type with _ | s
    · rfl
    · rw [ht] at h
      simp [jsTruthy] at h
      simp [jsOrStr, h]
  · intro s hs hne
    rw [hs]
    simp [jsOrStr, hne]
  · intro fallback h
    rcases ht : resp.refresh_token with _ | s
    · rfl
    · rw [ht] at h
      simp [jsTruthy] at h
      simp [jsOrStr, h]
  · intro fallback s hs hne
    rw [hs]
    simp [jsOrStr, hne]

/-- Concrete inputs for the C4 witness: the spec's worked example — a
response carrying only a new access token and `expires_in = 3600`. -/
def c4Creds : QwenCode.Credentials :=
  { access_token := "A1", refresh_token := "R1", token_type := "Bearer",
    expiry_date := 1000, resource_url := none }

/-- Token response for the C4 witness. -/
def c4Resp : TokenResponse :=
  { ok := true, status := 200, statusText := "OK", bodyText := "",
    error := none, error_description := none, access_token := "A2",
    token_type := none, refresh_token := none, expires_in := 3600 }

/-- Gemini state with a cached OAuth config, for the C4 witness. -/
def c4GState : GeminiCli.ProviderState :=
  { credentials := none, oauthPath := none, pathResolved := true,
    oauthConfig := some { oauthClientId := some "cid", oauthClientSecret := some "sec" } }

/-- Gemini prior record for the C4 witness. -/
def c4GCreds : GeminiCli.Credentials :=
  { access_token := "A1", refresh_token := "R1", token_type := "Bearer",
    expiry_date := 1000 }

/-- Witness for claim C4: the refreshed record keeps the prior
`refresh_token` "R1", defaults `token_type` to "Bearer" and has
`expiry_date = now + 3600000`. -/
theorem claim_C4_refreshed_record_witness :
    (∃ r, QwenCode.performTokenRefresh c4Creds (.ok c4Resp) 50 true true = .ok r ∧
      r.access_token = "A2" ∧ r.token_type = "Bearer" ∧ r.refresh_token = "R1" ∧
      r.expiry_date = 50 + 3600 * 1000)
  ∧ (∃ st2 r, GeminiCli.performTokenRefresh c4GState c4GCreds
        (.netFail "x") (.ok c4Resp) 50 true true = (st2, .ok r) ∧
      r.refresh_token = "R1") := by
  have h := claim_C4_refreshed_record c4Creds c4Resp 50 true true c4GState c4GCreds
    (GeminiCli.ConfigFetchOutcome.netFail "x") (by decide) rfl rfl (by decide)
    ⟨c4GState, _, rfl⟩
  obtain ⟨⟨r, hr, e1, e2, e3, e4, e5⟩, ⟨st2, r2, hr2, f1, f2, f3, f4⟩, rest⟩ := h
  refine ⟨⟨r, hr, e1, ?_, ?_, e4⟩, ⟨st2, r2, hr2, ?_⟩⟩
  · rw [e2]; rfl
  · rw [e3]; rfl
  · rw [f3]; rfl

/-- Claim C10: whenever the refresh fails (absent refresh token, failed
config fetch, network failure, non-success HTTP status, or an error field in
the response), the cached `_credentials` field is left equal to the
pre-refresh record — both on the ensure-ready path and in the retry
wrapper; a new record is assigned only on success.  Both providers. -/
theorem claim_C10_refresh_failure_atomic (A : Type)
    (stq : QwenCode.ProviderState) (cq : QwenCode.Credentials)
    (aq bq pq : Option String) (wq : QwenCode.EnsureWorld)
    (eq2 : QwenCode.RefreshError) (cal1 cal2 : Except QwenCode.ApiError A)
    (stg : GeminiCli.ProviderState) (cg : GeminiCli.Credentials)
    (ag bg pg : Option String) (wg : GeminiCli.EnsureWorld)
    (gal1 gal2 : Except QwenCode.ApiError A) :
    (stq.credentials = some cq →
      QwenCode.performTokenRefresh cq wq.fetchResult wq.now wq.mkdirOk wq.writeOk =
        .error eq2 →
      (QwenCode.ensureClient stq aq bq pq wq).state.credentials = some cq)
  ∧ (stq.credentials = none →
      QwenCode.loadCredentials wq.file = .ok cq →
      QwenCode.performTokenRefresh cq wq.fetchResult wq.now wq.mkdirOk wq.writeOk =
        .error eq2 →
      (QwenCode.ensureClient stq aq bq pq wq).state.credentials = some cq)
  ∧ (stq.credentials = some cq →
      QwenCode.performTokenRefresh cq wq.fetchResult wq.now wq.mkdirOk wq.writeOk =
        .error eq2 →
      (QwenCode.callApiWithRetry stq cal1 cal2 wq).state = stq)
  ∧ (stg.credentials = some cg →
      (∀ st' : GeminiCli.ProviderState,
        (GeminiCli.performTokenRefresh st' cg wg.remoteConfig wg.fetchResult
          wg.now wg.mkdirOk wg.writeOk).2.isOk = false) →
      (GeminiCli.ensureAuthenticated stg ag bg pg wg).state.credentials = some cg)
  ∧ (stg.credentials = none →
      GeminiCli.loadCredentials wg.file = .ok cg →
      (∀ st' : GeminiCli.ProviderState,
        (GeminiCli.performTokenRefresh st' cg wg.remoteConfig wg.fetchResult
          wg.now wg.mkdirOk wg.writeOk).2.isOk = false) →
      (GeminiCli.ensureAuthenticated stg ag bg pg wg).state.credentials = some cg)
  ∧ (stg.credentials = some cg →
      (GeminiCli.performTokenRefresh stg cg wg.remoteConfig wg.fetchResult
        wg.now wg.mkdirOk wg.writeOk).2.isOk = false →
      (GeminiCli.callApiWithRetry stg gal1 gal2 wg).state.credentials = some cg) := by
  refine ⟨?_, ?_, ?_, ?_, ?_, ?_⟩
  · intro hcred href
    unfold QwenCode.ensureClient
    have hc1 : (QwenCode.initOAuthPath stq aq bq pq).credentials = some cq := by
      rw [qwen_init_creds, hcred]
    simp only [hc1]
    exact qwen_ensureWith_fail_pres _ _ _ _ _ hc1 href
  · intro hnone hload href
    unfold QwenCode.ensureClient
    have hc1 : (QwenCode.initOAuthPath stq aq bq pq).credentials = none := by
      rw [qwen_init_creds, hnone]
    simp only [hc1, hload]
    exact qwen_ensureWith_fail_pres _ _ _ _ _ rfl href
  · intro hcred href
    unfold QwenCode.callApiWithRetry
    cases cal1 with
    | ok a => rfl
    | error e =>
      simp only [hcred]
      by_cases hst : (e.status == some 401) = true
      · simp [hst, href]
      · simp [hst]
  · intro hcred href
    unfold GeminiCli.ensureAuthenticated
    have hc1 : (GeminiCli.initOAuthPath stg ag bg pg).credentials = some cg := by
      rw [gemini_init_creds, hcred]
    simp only [hc1]
    exact gemini_ensureWith_fail_pres _ _ _ _ hc1 (href _)
  · intro hnone hload href
    unfold GeminiCli.ensureAuthenticated
    have hc1 : (GeminiCli.initOAuthPath stg ag bg pg).credentials = none := by
      rw [gemini_init_creds, hnone]
    simp only [hc1, hload]
    exact gemini_ensureWith_fail_pres _ _ _ _ rfl (href _)
  · intro hcred href
    unfold GeminiCli.callApiWithRetry
    cases gal1 with
    | ok a => exact hcred
    | error e =>
      simp only [hcred]
      by_cases hst : (e.status == some 401) = true
      · simp only [hst, if_true]
        rcases hp : GeminiCli.performTokenRefresh stg cg wg.remoteConfig
            wg.fetchResult wg.now wg.mkdirOk wg.writeOk with ⟨st', r⟩
        replace href : r.isOk = false := by rw [hp] at href; exact href
        cases r with
        | error re =>
          show st'.credentials = some cg
          have h1 : (GeminiCli.performTokenRefresh stg cg wg.remoteConfig
              wg.fetchResult wg.now wg.mkdirOk wg.writeOk).1 = st' := by rw [hp]
          rw [← h1, gemini_refresh_creds]
          exact hcred
        | ok c' => simp [Except.isOk, Except.toBool] at href
      · simp only [hst, Bool.false_eq_true, if_false]
        exact hcred

/-- Expired Qwen record for the C10 witness. -/
def c10Creds : QwenCode.Credentials :=
  { access_token := "AT", refresh_token := "RT", token_type := "Bearer",
    expiry_date := 1000, resource_url := none }

/-- Qwen state holding the expired record, for the C10 witness. -/
def c10St : QwenCode.ProviderState :=
  { credentials := some c10Creds, oauthPath := none, pathResolved := true,
    client := none }

/-- World where the refresh network call fails, for the C10 witness. -/
def c10W : QwenCode.EnsureWorld :=
  { file := .readFail "nf", now := 999999999, fetchResult := .error "down",
    mkdirOk := true, writeOk := true }

/-- Expired Gemini record for the C10 witness. -/
def c10GCreds : GeminiCli.Credentials :=
  { access_token := "AT", refresh_token := "RT", token_type := "Bearer",
    expiry_date := 1000 }

/-- Gemini state holding the expired record, for the C10 witness. -/
def c10GSt : GeminiCli.ProviderState :=
  { credentials := some c10GCreds, oauthPath := none, pathResolved := true,
    oauthConfig := none }

/-- World where the Gemini refresh network call fails (config fetch would
succeed), for the C10 witness. -/
def c10GW : GeminiCli.EnsureWorld :=
  { file := .readFail "nf", now := 999999999,
    remoteConfig := .okBody (some { oauthClientId := some "cid", oauthClientSecret := some "sec" }),
    fetchResult := .error "down", mkdirOk := true, writeOk := true }

/-- Witness for claim C10: a failed refresh of an expired cached record
leaves the cached record unchanged, in both providers. -/
theorem claim_C10_refresh_failure_atomic_witness :
    ((QwenCode.ensureClient c10St none none none c10W).state.credentials =
      some c10Creds)
  ∧ ((GeminiCli.ensureAuthenticated c10GSt none none none c10GW).state.credentials =
      some c10GCreds) := by
  have hrefg : ∀ st' : GeminiCli.ProviderState,
      (GeminiCli.performTokenRefresh st' c10GCreds c10GW.remoteConfig
        c10GW.fetchResult c10GW.now c10GW.mkdirOk c10GW.writeOk).2.isOk = false := by
    intro st'
    unfold GeminiCli.performTokenRefresh GeminiCli.fetchOAuthConfig
    rcases hoc : st'.oauthConfig with _ | cfg <;>
      simp [hoc, c10GW, c10GCreds, Except.isOk, Except.toBool, jsTruthy]
  have h := claim_C10_refresh_failure_atomic Nat c10St c10Creds none none none c10W
    (QwenCode.RefreshError.network "down") (.ok 0) (.ok 0)
    c10GSt c10GCreds none none none c10GW (.ok 0) (.ok 0)
  exact ⟨h.1 rfl (by decide), h.2.2.2.1 rfl hrefg⟩

/-- Claim C9: `getDynamicModels` never throws; in the browser, on any
authentication failure, on a network failure of the model-list fetch, on a
non-success HTTP status, or on a response without a model array, it returns
the empty list so the static model list is used; the Gemini variant always
returns the empty list. -/
theorem claim_C9_dynamic_models_fallback (stq : QwenCode.ProviderState)
    (aq bq pq : Option String) (wq : QwenCode.EnsureWorld)
    (mf : Except String QwenCode.ModelsResponse)
    (stg : GeminiCli.ProviderState) (ag bg pg : Option String)
    (wg : GeminiCli.EnsureWorld) (ib : Bool) :
    (QwenCode.getDynamicModels true stq aq bq pq wq mf = (stq, []))
  ∧ ((QwenCode.ensureClient (QwenCode.initOAuthPath stq aq bq pq) aq bq pq wq).result.isOk
        = false →
      (QwenCode.getDynamicModels false stq aq bq pq wq mf).2 = [])
  ∧ (∀ msg, mf = .error msg →
      (QwenCode.getDynamicModels false stq aq bq pq wq mf).2 = [])
  ∧ (∀ resp, mf = .ok resp → resp.ok = false →
      (QwenCode.getDynamicModels false stq aq bq pq wq mf).2 = [])
  ∧ (∀ resp, mf = .ok resp → resp.dataField = none →
      (QwenCode.getDynamicModels false stq aq bq pq wq mf).2 = [])
  ∧ (GeminiCli.getDynamicModels ib stg ag bg pg wg).2 = [] := by
  refine ⟨rfl, ?_, ?_, ?_, ?_, ?_⟩
  · intro h
    rcases her : (QwenCode.ensureClient (QwenCode.initOAuthPath stq aq bq pq)
        aq bq pq wq).result with e | cl
    · simp [QwenCode.getDynamicModels, her]
    · rw [her] at h
      simp [Except.isOk, Except.toBool] at h
  · intro msg hm
    subst hm
    rcases her : (QwenCode.ensureClient (QwenCode.initOAuthPath stq aq bq pq)
        aq bq pq wq).result with e | cl <;>
      simp [QwenCode.getDynamicModels, her]
  · intro resp hm hok
    subst hm
    rcases her : (QwenCode.ensureClient (QwenCode.initOAuthPath stq aq bq pq)
        aq bq pq wq).result with e | cl <;>
      simp [QwenCode.getDynamicModels, her, hok]
  · intro resp hm hdf
    subst hm
    rcases her : (QwenCode.ensureClient (QwenCode.initOAuthPath stq aq bq pq)
        aq bq pq wq).result with e | cl <;>
      simp [QwenCode.getDynamicModels, her, hdf]
  · cases ib <;> simp [GeminiCli.getDynamicModels]

/-- Witness for claim C9: with a missing credential file, `getDynamicModels`
returns the empty list in both providers. -/
theorem claim_C9_dynamic_models_fallback_witness :
    ((QwenCode.getDynamicModels false ⟨none, none, false, none⟩ none none none
      c10W (.error "net")).2 = [])
  ∧ ((GeminiCli.getDynamicModels false ⟨none, none, false, none⟩ none none none
      c10GW).2 = []) := by
  have h := claim_C9_dynamic_models_fallback ⟨none, none, false, none⟩
    none none none c10W (.error "net") ⟨none, none, false, none⟩
    none none none c10GW false
  exact ⟨h.2.1 (by decide), h.2.2.2.2.2⟩

/-- Claim C2 (amended): `callApiWithRetry` invokes `apiCall` once; a success,
a failure whose status is not 401, or a failure with no cached record
propagates immediately with no refresh and no retry; on a 401 failure with a
cached record it forces exactly one refresh — when the refresh succeeds it
invokes `apiCall` exactly once more, returning that retry's result on
success and propagating the retry's failure unmodified; when the refresh
fails, the refresh failure propagates and `apiCall` is not reinvoked.  Both
providers. -/
theorem claim_C2_retry_wrapper (A : Type) (a : A)
    (stq : QwenCode.ProviderState) (cal1 cal2 : Except QwenCode.ApiError A)
    (wq : QwenCode.EnsureWorld) (e e2 : QwenCode.ApiError)
    (cq cq' : QwenCode.Credentials) (re : QwenCode.RefreshError)
    (stg stg' : GeminiCli.ProviderState) (cg cg' : GeminiCli.Credentials)
    (wg : GeminiCli.EnsureWorld) (rg : GeminiCli.RefreshError) :
    (cal1 = .ok a →
      QwenCode.callApiWithRetry stq cal1 cal2 wq = ⟨stq, .success a, 1, 0⟩)
  ∧ (cal1 = .error e → e.status ≠ some 401 →
      QwenCode.callApiWithRetry stq cal1 cal2 wq = ⟨stq, .apiFailure e, 1, 0⟩)
  ∧ (cal1 = .error e → stq.credentials = none →
      QwenCode.callApiWithRetry stq cal1 cal2 wq = ⟨stq, .apiFailure e, 1, 0⟩)
  ∧ (cal1 = .error e → e.status = some 401 → stq.credentials = some cq →
      QwenCode.performTokenRefresh cq wq.fetchResult wq.now wq.mkdirOk wq.writeOk =
        .ok cq' →
      cal2 = .ok a →
      QwenCode.callApiWithRetry stq cal1 cal2 wq =
        ⟨{ stq with credentials := some cq' }, .success a, 2, 1⟩)
  ∧ (cal1 = .error e → e.status = some 401 → stq.credentials = some cq →
      QwenCode.performTokenRefresh cq wq.fetchResult wq.now wq.mkdirOk wq.writeOk =
        .ok cq' →
      cal2 = .error e2 →
      QwenCode.callApiWithRetry stq cal1 cal2 wq =
        ⟨{ stq with credentials := some cq' }, .apiFailure e2, 2, 1⟩)
  ∧ (cal1 = .error e → e.status = some 401 → stq.credentials = some cq →
      QwenCode.performTokenRefresh cq wq.fetchResult wq.now wq.mkdirOk wq.writeOk =
        .error re →
      QwenCode.callApiWithRetry stq cal1 cal2 wq = ⟨stq, .refreshFailure re, 1, 1⟩)
  ∧ (cal1 = .ok a →
      GeminiCli.callApiWithRetry stg cal1 cal2 wg = ⟨stg, .success a, 1, 0⟩)
  ∧ (cal1 = .error e → e.status ≠ some 401 →
      GeminiCli.callApiWithRetry stg cal1 cal2 wg = ⟨stg, .apiFailure e, 1, 0⟩)
  ∧ (cal1 = .error e → stg.credentials = none →
      GeminiCli.callApiWithRetry stg cal1 cal2 wg = ⟨stg, .apiFailure e, 1, 0⟩)
  ∧ (cal1 = .error e → e.status = some 401 → stg.credentials = some cg →
      GeminiCli.performTokenRefresh stg cg wg.remoteConfig wg.fetchResult wg.now
        wg.mkdirOk wg.writeOk = (stg', .ok cg') →
      cal2 = .ok a →
      GeminiCli.callApiWithRetry stg cal1 cal2 wg =
        ⟨{ stg' with credentials := some cg' }, .success a, 2, 1⟩)
  ∧ (cal1 = .error e → e.status = some 401 → stg.credentials = some cg →
      GeminiCli.performTokenRefresh stg cg wg.remoteConfig wg.fetchResult wg.now
        wg.mkdirOk wg.writeOk = (stg', .ok cg') →
      cal2 = .error e2 →
      GeminiCli.callApiWithRetry stg cal1 cal2 wg =
        ⟨{ stg' with credentials := some cg' }, .apiFailure e2, 2, 1⟩)
  ∧ (cal1 = .error e → e.status = some 401 → stg.credentials = some cg →
      GeminiCli.performTokenRefresh stg cg wg.remoteConfig wg.fetchResult wg.now
        wg.mkdirOk wg.writeOk = (stg', .error rg) →
      GeminiCli.callApiWithRetry stg cal1 cal2 wg = ⟨stg', .refreshFailure rg, 1, 1⟩) := by
  refine ⟨?_, ?_, ?_, ?_, ?_, ?_, ?_, ?_, ?_, ?_, ?_, ?_⟩
  · intro h1; subst h1; rfl
  · intro h1 h2; subst h1
    unfold QwenCode.callApiWithRetry
    cases hc : stq.credentials <;> simp [hc, h2]
  · intro h1 h2; subst h1
    unfold QwenCode.callApiWithRetry
    simp [h2]
  · intro h1 h2 h3 h4 h5; subst h1; subst h5
    unfold QwenCode.callApiWithRetry
    simp [h2, h3, h4]
  · intro h1 h2 h3 h4 h5; subst h1; subst h5
    unfold QwenCode.callApiWithRetry
    simp [h2, h3, h4]
  · intro h1 h2 h3 h4; subst h1
    unfold QwenCode.callApiWithRetry
    simp [h2, h3, h4]
  · intro h1; subst h1; rfl
  · intro h1 h2; subst h1
    unfold GeminiCli.callApiWithRetry
    cases hc : stg.credentials <;> simp [hc, h2]
  · intro h1 h2; subst h1
    unfold GeminiCli.callApiWithRetry
    simp [h2]
  · intro h1 h2 h3 h4 h5; subst h1; subst h5
    unfold GeminiCli.callApiWithRetry
    simp [h2, h3, h4]
  · intro h1 h2 h3 h4 h5; subst h1; subst h5
    unfold GeminiCli.callApiWithRetry
    simp [h2, h3, h4]
  · intro h1 h2 h3 h4; subst h1
    unfold GeminiCli.callApiWithRetry
    simp [h2, h3, h4]

/-- Cached record for the C2 counterexample. -/
def cex2Creds : QwenCode.Credentials :=
  { access_token := "AT", refresh_token := "RT", token_type := "Bearer",
    expiry_date := 1000, resource_url := none }

/-- Provider state with a cached record for the C2 counterexample. -/
def cex2St : QwenCode.ProviderState :=
  { credentials := some cex2Creds, oauthPath := none, pathResolved := true,
    client := none }

/-- World in which the token-endpoint fetch fails, for the C2
counterexample. -/
def cex2W : QwenCode.EnsureWorld :=
  { file := .readFail "nf", now := 5000,
    fetchResult := .error "refresh endpoint down", mkdirOk := true,
    writeOk := true }

/-- First api-call outcome for the C2 counterexample: a 401 failure. -/
def cex2Call1 : Except QwenCode.ApiError Nat :=
  .error { status := some 401, message := "Unauthorized" }

/-- Second api-call outcome for the C2 counterexample: it would succeed. -/
def cex2Call2 : Except QwenCode.ApiError Nat := .ok 7

/-- Claim C2 counterexample: the first invocation fails with status 401 and
a cached record exists, yet `apiCall` is NOT invoked exactly once more — the
forced refresh fails, no retry happens (one invocation total), and the
refresh failure (not the retry's result) propagates.  This refutes "it
forces exactly one refresh and then invokes apiCall exactly once more,
returning that retry's result on success". -/
theorem claim_C2_counterexample :
    cex2Call1 = Except.error { status := some 401, message := "Unauthorized" } ∧
    cex2St.credentials = some cex2Creds ∧
    cex2Call2 = Except.ok 7 ∧
    QwenCode.callApiWithRetry cex2St cex2Call1 cex2Call2 cex2W =
      { state := cex2St,
        outcome := .refreshFailure (.network "refresh endpoint down"),
        apiInvocations := 1, refreshCalls := 1 } ∧
    (QwenCode.callApiWithRetry cex2St cex2Call1 cex2Call2 cex2W).apiInvocations ≠ 2 ∧
    (QwenCode.callApiWithRetry cex2St cex2Call1 cex2Call2 cex2W).outcome ≠
      .success 7 := by
  refine ⟨rfl, rfl, rfl, ?_, ?_, ?_⟩ <;> decide

/-- Refreshed record produced in the C2 witness scenario. -/
def c2wCreds' : QwenCode.Credentials :=
  { access_token := "A2", refresh_token := "RT", token_type := "Bearer",
    expiry_date := 50 + 3600 * 1000, resource_url := none }

/-- Witness for claim C2 (amended): a 401 followed by a successful refresh
and a successful retry returns the retry's result with exactly two
invocations and one refresh. -/
theorem claim_C2_retry_wrapper_witness :
    QwenCode.callApiWithRetry cex2St cex2Call1 (Except.ok 7)
      { file := .readFail "nf", now := 50, fetchResult := .ok c4Resp,
        mkdirOk := true, writeOk := true } =
      { state := { cex2St with credentials := some c2wCreds' },
        outcome := .success 7, apiInvocations := 2, refreshCalls := 1 } := by
  have h := claim_C2_retry_wrapper Nat 7 cex2St cex2Call1 (Except.ok 7)
    { file := .readFail "nf", now := 50, fetchResult := .ok c4Resp,
      mkdirOk := true, writeOk := true }
    { status := some 401, message := "Unauthorized" }
    { status := some 401, message := "Unauthorized" }
    cex2Creds c2wCreds' (QwenCode.RefreshError.network "x")
    ⟨none, none, false, none⟩ ⟨none, none, false, none⟩
    ⟨"a", "r", "b", 0⟩ ⟨"a", "r", "b", 0⟩ c10GW GeminiCli.RefreshError.noRefreshToken
  exact h.2.2.2.1 rfl rfl rfl (by decide) rfl

/-- A valid (unexpired) credential file for the C7 counterexample. -/
def c7File : FileContent :=
  .parsed { access_token := some "AT", refresh_token := some "RT",
            token_type := some "Bearer", expiry_date := some 999999999999,
            resource_url := none }

/-- World with valid credentials for the C7 counterexample. -/
def c7W : QwenCode.EnsureWorld :=
  { file := c7File, now := 1000, fetchResult := .error "net", mkdirOk := true,
    writeOk := true }

/-- First generate invocation on a fresh model handle (C7). -/
def c7Run1 : QwenCode.InvokeResult Nat :=
  QwenCode.invokeModelOp ⟨none, false⟩ ⟨none, none, false, none⟩
    none none none c7W (.ok 1) (.ok 1)

/-- Second generate invocation, on the handle state left by the first
(C7). -/
def c7Run2 : QwenCode.InvokeResult Nat :=
  QwenCode.invokeModelOp c7Run1.handle c7Run1.state none none none c7W
    (.ok 1) (.ok 1)

/-- Claim C7 counterexample: the first generate invocation runs the
authentication orchestrator once, but the second invocation performs zero
orchestrator runs — `getAuthenticatedClient` returns the cached
`clientPromise` without re-validating token expiry.  This refutes "every
invocation ... re-runs the authentication orchestrator first ... not only
the first invocation". -/
theorem claim_C7_counterexample :
    c7Run1.ensureRuns = 1 ∧ c7Run1.wrapperCalls = 1 ∧
    c7Run2.ensureRuns = 0 ∧ c7Run2.ensureRuns ≠ 1 ∧ c7Run2.wrapperCalls = 1 := by
  refine ⟨?_, ?_, ?_, ?_, ?_⟩ <;> decide

/-- Claim C7 (amended): only an invocation that finds no cached client
promise runs the authentication orchestrator, exactly once; once a client
promise is cached — for Qwen even a rejected one — subsequent invocations
perform zero orchestrator runs and reuse it (stale tokens are handled only
by the 401-retry wrapper); in the Gemini provider a failed authentication
leaves the cache empty, so the next invocation runs the orchestrator again;
every invocation that obtains a client issues its call through the retry
wrapper exactly once. -/
theorem claim_C7_first_use_auth (A : Type) (h7 : QwenCode.HandleState)
    (st : QwenCode.ProviderState) (a b p : Option String)
    (w : QwenCode.EnsureWorld) (cal1 cal2 : Except QwenCode.ApiError A)
    (cached : Except QwenCode.AuthError QwenCode.Client)
    (gh : GeminiCli.HandleState) (gst : GeminiCli.ProviderState)
    (ga gb gp : Option String) (gw : GeminiCli.EnsureWorld)
    (gcl : GeminiCli.Client) (tok : String) (ge : GeminiCli.AuthError) :
    (h7.clientPromise = none → h7.initInProgress = false →
      (QwenCode.getAuthenticatedClient h7 st a b p w).ensureRuns = 1 ∧
      (QwenCode.invokeModelOp h7 st a b p w cal1 cal2).handle.clientPromise =
        some (QwenCode.ensureClient st a b p w).result)
  ∧ (h7.clientPromise = some cached →
      (QwenCode.getAuthenticatedClient h7 st a b p w).ensureRuns = 0 ∧
      (QwenCode.getAuthenticatedClient h7 st a b p w).state = st ∧
      (QwenCode.getAuthenticatedClient h7 st a b p w).handle = h7 ∧
      (QwenCode.invokeModelOp h7 st a b p w cal1 cal2).ensureRuns = 0)
  ∧ ((QwenCode.getAuthenticatedClient h7 st a b p w).client.isOk = true →
      (QwenCode.invokeModelOp h7 st a b p w cal1 cal2).wrapperCalls = 1)
  ∧ (gh.clientPromise = none → gh.initInProgress = false →
      (GeminiCli.getAuthenticatedClient gh gst ga gb gp gw).ensureRuns = 1)
  ∧ (gh.clientPromise = some gcl →
      (GeminiCli.getAuthenticatedClient gh gst ga gb gp gw).ensureRuns = 0 ∧
      (GeminiCli.getAuthenticatedClient gh gst ga gb gp gw).handle = gh ∧
      (GeminiCli.invokeModelOp gh gst ga gb gp gw cal1 cal2).ensureRuns = 0)
  ∧ ((GeminiCli.getAuthenticatedClient gh gst ga gb gp gw).client.isOk = true →
      (GeminiCli.invokeModelOp gh gst ga gb gp gw cal1 cal2).wrapperCalls = 1)
  ∧ (gh.clientPromise = none → gh.initInProgress = false →
      (GeminiCli.ensureAuthenticated gst ga gb gp gw).result = .ok tok →
      (GeminiCli.invokeModelOp gh gst ga gb gp gw cal1 cal2).handle.clientPromise =
        some ⟨tok⟩)
  ∧ (gh.clientPromise = none → gh.initInProgress = false →
      (GeminiCli.ensureAuthenticated gst ga gb gp gw).result = .error ge →
      (GeminiCli.invokeModelOp gh gst ga gb gp gw cal1 cal2).handle.clientPromise =
        none) := by
  refine ⟨?_, ?_, ?_, ?_, ?_, ?_, ?_, ?_⟩
  · intro h1 h2
    constructor
    · unfold QwenCode.getAuthenticatedClient
      simp [h1, h2]
    · unfold QwenCode.invokeModelOp QwenCode.getAuthenticatedClient
      rcases her : (QwenCode.ensureClient st a b p w).result with e | cl <;>
        simp [h1, h2, her]
  · intro h1
    refine ⟨?_, ?_, ?_, ?_⟩ <;>
      [skip; skip; skip;
        unfold QwenCode.invokeModelOp] <;>
      unfold QwenCode.getAuthenticatedClient <;>
      cases cached <;> simp [h1]
  · intro h
    unfold QwenCode.invokeModelOp
    rcases hcl : (QwenCode.getAuthenticatedClient h7 st a b p w).client with e | cl
    · rw [hcl] at h; simp [Except.isOk, Except.toBool] at h
    · simp [hcl]
  · intro h1 h2
    unfold GeminiCli.getAuthenticatedClient
    rcases her : (GeminiCli.ensureAuthenticated gst ga gb gp gw).result with e | tk <;>
      simp [h1, h2, her]
  · intro h1
    refine ⟨?_, ?_, ?_⟩ <;>
      [skip; skip; unfold GeminiCli.invokeModelOp] <;>
      unfold GeminiCli.getAuthenticatedClient <;>
      simp [h1]
  · intro h
    unfold GeminiCli.invokeModelOp
    rcases hcl : (GeminiCli.getAuthenticatedClient gh gst ga gb gp gw).client with e | cl
    · rw [hcl] at h; simp [Except.isOk, Except.toBool] at h
    · simp [hcl]
  · intro h1 h2 h3
    unfold GeminiCli.invokeModelOp GeminiCli.getAuthenticatedClient
    simp [h1, h2, h3]
  · intro h1 h2 h3
    unfold GeminiCli.invokeModelOp GeminiCli.getAuthenticatedClient
    simp [h1, h2, h3]

/-- Witness for claim C7 (amended): a handle with a cached client promise
performs zero orchestrator runs; a fresh handle performs one. -/
theorem claim_C7_first_use_auth_witness :
    ((QwenCode.getAuthenticatedClient ⟨some (.ok ⟨"u", "k"⟩), false⟩
        ⟨none, none, false, none⟩ none none none c7W).ensureRuns = 0)
  ∧ ((QwenCode.getAuthenticatedClient ⟨none, false⟩
        ⟨none, none, false, none⟩ none none none c7W).ensureRuns = 1) := by
  have h1 := claim_C7_first_use_auth Nat ⟨some (.ok ⟨"u", "k"⟩), false⟩
    ⟨none, none, false, none⟩ none none none c7W (.ok 0) (.ok 0)
    (.ok ⟨"u", "k"⟩) ⟨none, false⟩ ⟨none, none, false, none⟩ none none none
    c10GW ⟨"t"⟩ "t" (.load ⟨.missingTokenFields⟩)
  have h2 := claim_C7_first_use_auth Nat ⟨none, false⟩
    ⟨none, none, false, none⟩ none none none c7W (.ok 0) (.ok 0)
    (.ok ⟨"u", "k"⟩) ⟨none, false⟩ ⟨none, none, false, none⟩ none none none
    c10GW ⟨"t"⟩ "t" (.load ⟨.missingTokenFields⟩)
  exact ⟨(h1.2.1 rfl).1, (h2.1 rfl rfl).1⟩

namespace SingleFlight

/-- Helper: an element of `l.set i v` is an element of `l` or is `v`. -/
theorem mem_set_cases {α : Type} :
    ∀ (l : List α) (i : Nat) (v c : α), c ∈ l.set i v → c ∈ l ∨ c = v
  | [], i, v, c, h => absurd h (by cases i <;> simp)
  | a :: t, 0, v, c, h => by
      rcases List.mem_cons.mp h with h | h
      · exact Or.inr h
      · exact Or.inl (List.mem_cons_of_mem _ h)
  | a :: t, i + 1, v, c, h => by
      rcases List.mem_cons.mp h with h | h
      · exact Or.inl (h ▸ List.mem_cons_self a t)
      · rcases mem_set_cases t i v c h with h2 | h2
        · exact Or.inl (List.mem_cons_of_mem _ h2)
        · exact Or.inr h2

/-- Helper: an element read by `get?` is a member of the list. -/
theorem getq_mem {α : Type} :
    ∀ (l : List α) (i : Nat) (a : α), l.get? i = some a → a ∈ l
  | [], i, a, h => by cases i <;> exact Option.noConfusion h
  | x :: t, 0, a, h => by
      have h' : some x = some a := h
      injection h' with h'
      exact h' ▸ List.mem_cons_self x t
  | x :: t, i + 1, a, h => by
      have h' : t.get? i = some a := h
      exact List.mem_cons_of_mem _ (getq_mem t i a h')

/-- Helper: reading any position of a singleton list. -/
theorem getq_singleton {α : Type} (x y : α) (i : Nat)
    (h : [x].get? i = some y) : i = 0 ∧ y = x := by
  cases i with
  | zero =>
    have h' : some x = some y := h
    injection h' with h'
    exact ⟨rfl, h'.symm⟩
  | succ n =>
    have h' : ([] : List α).get? n = some y := h
    exact Option.noConfusion h'

/-- Helper: every step preserves the number of callers. -/
theorem step_callers_length {R : Type} {s s' : RefreshSys R} {l : RLabel}
    (h : RStep s l s') : s'.callers.length = s.callers.length := by
  cases h <;> simp

/-- Helper: a trace preserves the number of callers. -/
theorem trace_callers_length {R : Type} {s s' : RefreshSys R}
    (h : ScenTrace s s') : s'.callers.length = s.callers.length := by
  induction h with
  | refl s => rfl
  | step hs hside ht ih => rw [ih, step_callers_length hs]

/-- Phase 0 of the concurrent scenario: no refresh started yet. -/
def InvA {R : Type} (s : RefreshSys R) : Prop :=
  s.netCalls = 0 ∧ s.ops = [] ∧ s.slot = none ∧
    ∀ c ∈ s.callers, c = CallerPhase.ready

/-- Phase 1: exactly one refresh operation started and still pending; every
caller is ready or waiting on it. -/
def InvB {R : Type} (s : RefreshSys R) : Prop :=
  s.netCalls = 1 ∧ s.ops = [OpState.pending] ∧ s.slot = some 0 ∧
    ∀ c ∈ s.callers, c = CallerPhase.ready ∨ c = CallerPhase.waitingJoin 0 ∨
      c = CallerPhase.waitingLead 0

/-- Phase 2: the one operation settled with result `r` after every caller
had entered; callers are waiting on it or finished with `r`. -/
def InvC {R : Type} (s : RefreshSys R) (r : R) : Prop :=
  s.netCalls = 1 ∧ s.ops = [OpState.settled r] ∧
    ∀ c ∈ s.callers, c = CallerPhase.waitingJoin 0 ∨
      c = CallerPhase.waitingLead 0 ∨ c = CallerPhase.finished r

/-- The scenario invariant. -/
def Inv {R : Type} (s : RefreshSys R) : Prop :=
  InvA s ∨ InvB s ∨ ∃ r, InvC s r

/-- The invariant holds initially. -/
theorem inv_init (R : Type) (n : Nat) : Inv (initSys R n) :=
  Or.inl ⟨rfl, rfl, rfl, fun _ hc => List.eq_of_mem_replicate hc⟩

/-- The invariant is preserved by every step of the concurrent scenario. -/
theorem inv_step {R : Type} {s s' : RefreshSys R} {l : RLabel}
    (hs : RStep s l s')
    (hside : l = RLabel.settle → ∀ c ∈ s.callers, c ≠ CallerPhase.ready)
    (hinv : Inv s) : Inv s' := by
  cases hs with
  | join i op hi hslot =>
    rcases hinv with ⟨hn, ho, hsl, hc⟩ | ⟨hn, ho, hsl, hc⟩ | ⟨r, hn, ho, hc⟩
    · rw [hsl] at hslot; cases hslot
    · rw [hsl] at hslot
      injection hslot with hop
      refine Or.inr (Or.inl ⟨hn, ho, hsl, ?_⟩)
      intro c hc2
      rcases mem_set_cases _ _ _ _ hc2 with h | h
      · exact hc c h
      · rw [h, ← hop]
        exact Or.inr (Or.inl rfl)
    · have hmem := getq_mem _ _ _ hi
      rcases hc _ hmem with h | h | h <;> simp at h
  | lead i hi hslot =>
    rcases hinv with ⟨hn, ho, hsl, hc⟩ | ⟨hn, ho, hsl, hc⟩ | ⟨r, hn, ho, hc⟩
    · refine Or.inr (Or.inl ⟨?_, ?_, ?_, ?_⟩)
      · simp only [hn]
      · simp only [ho]
        rfl
      · simp only [ho]
        rfl
      · intro c hc2
        rcases mem_set_cases _ _ _ _ hc2 with h | h
        · exact Or.inl (hc c h)
        · rw [h, ho]
          exact Or.inr (Or.inr rfl)
    · rw [hsl] at hslot; cases hslot
    · have hmem := getq_mem _ _ _ hi
      rcases hc _ hmem with h | h | h <;> simp at h
  | settleOp op r hpend =>
    have hnr := hside rfl
    rcases hinv with ⟨hn, ho, hsl, hc⟩ | ⟨hn, ho, hsl, hc⟩ | ⟨r0, hn, ho, hc⟩
    · rw [ho] at hpend
      cases op <;> exact Option.noConfusion hpend
    · rw [ho] at hpend
      obtain ⟨hop, _⟩ := getq_singleton _ _ _ hpend
      subst hop
      refine Or.inr (Or.inr ⟨r, hn, ?_, ?_⟩)
      · simp only [ho]
        rfl
      · intro c hc2
        rcases hc c hc2 with h | h | h
        · exact absurd h (hnr c hc2)
        · exact Or.inl h
        · exact Or.inr (Or.inl h)
    · rw [ho] at hpend
      obtain ⟨_, hpe⟩ := getq_singleton _ _ _ hpend
      simp at hpe
  | resumeJoin i op r hi hset =>
    rcases hinv with ⟨hn, ho, hsl, hc⟩ | ⟨hn, ho, hsl, hc⟩ | ⟨r0, hn, ho, hc⟩
    · have hmem := getq_mem _ _ _ hi
      have := hc _ hmem
      simp at this
    · rw [ho] at hset
      obtain ⟨_, hpe⟩ := getq_singleton _ _ _ hset
      simp at hpe
    · rw [ho] at hset
      obtain ⟨hop, hpe⟩ := getq_singleton _ _ _ hset
      injection hpe with hr
      refine Or.inr (Or.inr ⟨r0, hn, ho, ?_⟩)
      intro c hc2
      rcases mem_set_cases _ _ _ _ hc2 with h | h
      · exact hc c h
      · rw [h, hr]
        exact Or.inr (Or.inr rfl)
  | resumeLead i op r hi hset =>
    rcases hinv with ⟨hn, ho, hsl, hc⟩ | ⟨hn, ho, hsl, hc⟩ | ⟨r0, hn, ho, hc⟩
    · have hmem := getq_mem _ _ _ hi
      have := hc _ hmem
      simp at this
    · rw [ho] at hset
      obtain ⟨_, hpe⟩ := getq_singleton _ _ _ hset
      simp at hpe
    · rw [ho] at hset
      obtain ⟨hop, hpe⟩ := getq_singleton _ _ _ hset
      injection hpe with hr
      refine Or.inr (Or.inr ⟨r0, hn, ho, ?_⟩)
      intro c hc2
      rcases mem_set_cases _ _ _ _ hc2 with h | h
      · exact hc c h
      · rw [h, hr]
        exact Or.inr (Or.inr rfl)

/-- The invariant holds all along any scenario trace. -/
theorem inv_trace {R : Type} {s s' : RefreshSys R} (ht : ScenTrace s s')
    (hinv : Inv s) : Inv s' := by
  induction ht with
  | refl s => exact hinv
  | step hs hside ht ih => exact ih (inv_step hs hside hinv)

end SingleFlight

/-- Claim C1: single-flight refresh.  (i) In every execution of the
`refreshAccessToken` protocol in which N ≥ 1 concurrent callers all enter
while the in-flight refresh has not yet settled, and all eventually finish,
exactly one refresh network call is issued and all N callers receive the
same result (the shared operation's refreshed credential record or its
failure).  (ii) A step clears the in-flight `_refreshPromise` slot only when
the leader's awaited operation has already settled (success or failure).
(iii) While the slot is occupied, no step issues a new network refresh
call. -/
theorem claim_C1_single_flight (R : Type) (n : Nat)
    (s : SingleFlight.RefreshSys R) (hn : 0 < n)
    (htr : SingleFlight.ScenTrace (SingleFlight.initSys R n) s)
    (hdone : ∀ c ∈ s.callers, ∃ r, c = SingleFlight.CallerPhase.finished r) :
    (s.netCalls = 1 ∧
      ∃ r, ∀ c ∈ s.callers, c = SingleFlight.CallerPhase.finished r)
  ∧ (∀ (s1 s2 : SingleFlight.RefreshSys R) (l : SingleFlight.RLabel),
      SingleFlight.RStep s1 l s2 → s1.slot ≠ none → s2.slot = none →
      ∃ i op r,
        s1.callers.get? i = some (SingleFlight.CallerPhase.waitingLead op) ∧
        s1.ops.get? op = some (SingleFlight.OpState.settled r))
  ∧ (∀ (s1 s2 : SingleFlight.RefreshSys R) (l : SingleFlight.RLabel),
      SingleFlight.RStep s1 l s2 → s1.slot ≠ none →
      s2.netCalls = s1.netCalls) := by
  refine ⟨?_, ?_, ?_⟩
  · have hinv := SingleFlight.inv_trace htr (SingleFlight.inv_init R n)
    have hlen : s.callers.length = n := by
      rw [SingleFlight.trace_callers_length htr]
      simp [SingleFlight.initSys]
    obtain ⟨c0, hc0⟩ : ∃ c, c ∈ s.callers := by
      rcases hcl : s.callers with _ | ⟨c, t⟩
      · rw [hcl] at hlen
        simp at hlen
        omega
      · exact ⟨c, List.mem_cons_self c t⟩
    rcases hinv with ⟨hn0, _, _, hc⟩ | ⟨hn1, _, _, hc⟩ | ⟨r, hn1, ho, hc⟩
    · obtain ⟨r, hr⟩ := hdone c0 hc0
      have h := hc c0 hc0
      rw [h] at hr
      simp at hr
    · obtain ⟨r, hr⟩ := hdone c0 hc0
      rcases hc c0 hc0 with h | h | h <;> rw [h] at hr <;> simp at hr
    · refine ⟨hn1, r, ?_⟩
      intro c hcm
      rcases hc c hcm with h | h | h
      · obtain ⟨r2, hr2⟩ := hdone c hcm
        rw [h] at hr2
        simp at hr2
      · obtain ⟨r2, hr2⟩ := hdone c hcm
        rw [h] at hr2
        simp at hr2
      · exact h
  · intro s1 s2 l hs hne hnone
    cases hs with
    | join i op hi hslot => exact absurd hnone hne
    | lead i hi hslot => exact absurd hslot hne
    | settleOp op r hpend => exact absurd hnone hne
    | resumeJoin i op r hi hset => exact absurd hnone hne
    | resumeLead i op r hi hset => exact ⟨i, op, r, hi, hset⟩
  · intro s1 s2 l hs hne
    cases hs with
    | join i op hi hslot => rfl
    | lead i hi hslot => exact absurd hslot hne
    | settleOp op r hpend => rfl
    | resumeJoin i op r hi hset => rfl
    | resumeLead i op r hi hset => rfl

/-- The refresh result delivered in the C1 witness execution: a refreshed
Qwen credential record. -/
def c1Result : Except QwenCode.RefreshError QwenCode.Credentials :=
  .ok { access_token := "A2", refresh_token := "R1", token_type := "Bearer",
        expiry_date := 99999, resource_url := none }

/-- Final state of the C1 witness execution: two callers, both finished
with the same result, one network call. -/
def c1Final :
    SingleFlight.RefreshSys (Except QwenCode.RefreshError QwenCode.Credentials) :=
  { callers := [SingleFlight.CallerPhase.finished c1Result,
                SingleFlight.CallerPhase.finished c1Result]
    slot := none
    ops := [SingleFlight.OpState.settled c1Result]
    netCalls := 1 }

/-- The concrete two-caller execution for the C1 witness: caller 0 leads,
caller 1 joins the in-flight refresh, the operation settles, both resume. -/
theorem c1_witness_trace :
    SingleFlight.ScenTrace
      (SingleFlight.initSys (Except QwenCode.RefreshError QwenCode.Credentials) 2)
      c1Final := by
  refine SingleFlight.ScenTrace.step
    (SingleFlight.RStep.lead _ 0 rfl rfl) (by simp) ?_
  refine SingleFlight.ScenTrace.step
    (SingleFlight.RStep.join _ 1 0 rfl rfl) (by simp) ?_
  refine SingleFlight.ScenTrace.step
    (SingleFlight.RStep.settleOp _ 0 c1Result rfl) ?_ ?_
  · intro _ c hc
    have hc2 : c ∈ [SingleFlight.CallerPhase.waitingLead 0,
        SingleFlight.CallerPhase.waitingJoin 0] := hc
    rcases List.mem_cons.mp hc2 with rfl | hc3
    · simp
    · rcases List.mem_cons.mp hc3 with rfl | hc4
      · simp
      · simp at hc4
  refine SingleFlight.ScenTrace.step
    (SingleFlight.RStep.resumeJoin _ 1 0 c1Result rfl rfl) (by simp) ?_
  refine SingleFlight.ScenTrace.step
    (SingleFlight.RStep.resumeLead _ 0 0 c1Result rfl rfl) (by simp) ?_
  exact SingleFlight.ScenTrace.refl c1Final

/-- Witness for claim C1: in a concrete execution where two concurrent
callers both observe an expired record, exactly one network refresh call is
issued and both callers receive the same refreshed record. -/
theorem claim_C1_single_flight_witness :
    c1Final.netCalls = 1 ∧
    (∃ r, ∀ c ∈ c1Final.callers, c = SingleFlight.CallerPhase.finished r) := by
  have h := claim_C1_single_flight
    (Except QwenCode.RefreshError QwenCode.Credentials) 2 c1Final
    (by decide) c1_witness_trace ?_
  · exact h.1
  · intro c hc
    rcases List.mem_cons.mp hc with rfl | hc2
    · exact ⟨c1Result, rfl⟩
    · rcases List.mem_cons.mp hc2 with rfl | hc3
      · exact ⟨c1Result, rfl⟩
      · simp at hc3

/-- Gemini world with a well-formed credential file and valid token, for the
C6 witness. -/
def c6GW : GeminiCli.EnsureWorld :=
  { file := c7File, now := 1000,
    remoteConfig := .okBody (some { oauthClientId := some "cid", oauthClientSecret := some "sec" }),
    fetchResult := .error "x", mkdirOk := true, writeOk := true }

/-- Witness for claim C6: a parsed file without `refresh_token` fails with
the missing-fields `CredentialLoadError`; after one successful
`ensureClient`/`ensureAuthenticated` run on a well-formed file, the next run
performs zero file loads. -/
theorem claim_C6_load_credentials_witness :
    (QwenCode.loadCredentials
        (.parsed ⟨some "AT", none, none, none, none⟩) =
      .error ⟨.missingTokenFields⟩)
  ∧ ((QwenCode.ensureClient
        (QwenCode.ensureClient ⟨none, none, false, none⟩ none none none c7W).state
        none none none c7W).trace.loads = 0)
  ∧ ((GeminiCli.ensureAuthenticated
        (GeminiCli.ensureAuthenticated ⟨none, none, false, none⟩
          none none none c6GW).state
        none none none c6GW).trace.loads = 0) := by
  have h := claim_C6_load_credentials "m" ⟨some "AT", none, none, none, none⟩
    ⟨none, none, false, none⟩ none none none none none none c7W c7W cex2Creds
    ⟨none, none, false, none⟩ none none none none none none c6GW c6GW c10GCreds
  refine ⟨h.2.2.1 (Or.inr rfl), ?_, ?_⟩
  · exact h.2.2.2.2.2.1 (by decide)
  · exact h.2.2.2.2.2.2.2.2.2.2.2 (by decide)
